import Mathlib

/-!
Wrnch2Test: the `Wrnch2` driver over the `wrEngine.h` interface.

Shallow embedding of `Wrnch2/Wrnch2.cpp` (`Wrnch2::start`, `Wrnch2::detectionCallback`)
and of the enumerations declared in `wrEngine.h`.

The engine library itself is only present as a header.  Calls into it are
recorded as events (`Call`), and the values it hands back come from a `World`
record, so every theorem about `start` is quantified over all outcomes of the
library calls.
-/

namespace Wrnch2Test

/-! ## Enumerations of `wrEngine.h` -/

/-- Return codes used by wrEngine.h (`enum wrEngineCode`), in declaration order.
The enumerator `wrEngineCode_LICENSE_ERROR_IO` is written `LICENSE_ERROR_IO_` here. -/
inductive wrEngineCode
  | OK
  | ERR
  | BAD_ALLOC
  | UNSUPPORTED_ON_PLATFORM
  | LICENSE_ERROR_ACTIVATION
  | LICENSE_ERROR_ACTIVATION_LIMIT
  | LICENSE_ERROR_COUNTRY
  | LICENSE_ERROR_DEACTIVATION
  | LICENSE_ERROR_FINGERPRINT_CHANGED
  | LICENSE_ERROR_FINGERPRINT_INVALID
  | LICENSE_ERROR_FLOAT_LIMIT
  | LICENSE_ERROR_HOST
  | LICENSE_ERROR_INVALID_ACTIVATION
  | LICENSE_ERROR_INVALID_KEY
  | LICENSE_ERROR_INVALID_OFFLINE
  | LICENSE_ERROR_INVALID_TYPE
  | LICENSE_ERROR_IO_
  | LICENSE_ERROR_IP
  | LICENSE_ERROR_LEASE
  | LICENSE_ERROR_MALFORMED
  | LICENSE_ERROR_NOT_FOUND
  | LICENSE_ERROR_OS
  | LICENSE_ERROR_OTHER
  | LICENSE_ERROR_PERMISSIONS
  | LICENSE_ERROR_SERVER_ERROR
  | LICENSE_ERROR_SERVER_INVALID
  | LICENSE_ERROR_SERVER_LICENSE_EXPIRED
  | LICENSE_ERROR_SERVER_LICENSE_INVALID
  | LICENSE_ERROR_SERVER_LICENSE_SUSPENDED
  | LICENSE_ERROR_SYS_TIME
  | LICENSE_ERROR_VERSION
  | LICENSE_ERROR_VM
  | LICENSE_EXPIRED
  | LICENSE_GRACE_PERIOD_OVER
  | LICENSE_PATH_ERROR
  | LICENSE_REVOKED
  | LICENSE_SUSPENDED
  | TPOSE_CALIBRATION_DONE
  | TPOSE_CALIBRATION_JOINTS_MISSING
  | TPOSE_CALIBRATION_NO_PERSON_DETECTED
  | TPOSE_CALIBRATION_PERSON_MOVING
  | TPOSE_CALIBRATION_PERSON_NOT_FACING_CAMERA
  | TPOSE_CALIBRATION_PROGRESSING_OK
  | UNKNOWN_ERROR
  deriving DecidableEq, Repr

/-- The integer value of each enumerator: no enumerator of `wrEngineCode` has an
initialiser, so the first is 0 and each next one is the previous plus one. -/
def wrEngineCode.val : wrEngineCode → Nat
  | .OK => 0
  | .ERR => 1
  | .BAD_ALLOC => 2
  | .UNSUPPORTED_ON_PLATFORM => 3
  | .LICENSE_ERROR_ACTIVATION => 4
  | .LICENSE_ERROR_ACTIVATION_LIMIT => 5
  | .LICENSE_ERROR_COUNTRY => 6
  | .LICENSE_ERROR_DEACTIVATION => 7
  | .LICENSE_ERROR_FINGERPRINT_CHANGED => 8
  | .LICENSE_ERROR_FINGERPRINT_INVALID => 9
  | .LICENSE_ERROR_FLOAT_LIMIT => 10
  | .LICENSE_ERROR_HOST => 11
  | .LICENSE_ERROR_INVALID_ACTIVATION => 12
  | .LICENSE_ERROR_INVALID_KEY => 13
  | .LICENSE_ERROR_INVALID_OFFLINE => 14
  | .LICENSE_ERROR_INVALID_TYPE => 15
  | .LICENSE_ERROR_IO_ => 16
  | .LICENSE_ERROR_IP => 17
  | .LICENSE_ERROR_LEASE => 18
  | .LICENSE_ERROR_MALFORMED => 19
  | .LICENSE_ERROR_NOT_FOUND => 20
  | .LICENSE_ERROR_OS => 21
  | .LICENSE_ERROR_OTHER => 22
  | .LICENSE_ERROR_PERMISSIONS => 23
  | .LICENSE_ERROR_SERVER_ERROR => 24
  | .LICENSE_ERROR_SERVER_INVALID => 25
  | .LICENSE_ERROR_SERVER_LICENSE_EXPIRED => 26
  | .LICENSE_ERROR_SERVER_LICENSE_INVALID => 27
  | .LICENSE_ERROR_SERVER_LICENSE_SUSPENDED => 28
  | .LICENSE_ERROR_SYS_TIME => 29
  | .LICENSE_ERROR_VERSION => 30
  | .LICENSE_ERROR_VM => 31
  | .LICENSE_EXPIRED => 32
  | .LICENSE_GRACE_PERIOD_OVER => 33
  | .LICENSE_PATH_ERROR => 34
  | .LICENSE_REVOKED => 35
  | .LICENSE_SUSPENDED => 36
  | .TPOSE_CALIBRATION_DONE => 37
  | .TPOSE_CALIBRATION_JOINTS_MISSING => 38
  | .TPOSE_CALIBRATION_NO_PERSON_DETECTED => 39
  | .TPOSE_CALIBRATION_PERSON_MOVING => 40
  | .TPOSE_CALIBRATION_PERSON_NOT_FACING_CAMERA => 41
  | .TPOSE_CALIBRATION_PROGRESSING_OK => 42
  | .UNKNOWN_ERROR => 43

/-- Every enumerator of `wrEngineCode`, in declaration order (header lines 141 to 184). -/
def wrEngineCode.enumerators : List wrEngineCode :=
  [.OK, .ERR, .BAD_ALLOC, .UNSUPPORTED_ON_PLATFORM, .LICENSE_ERROR_ACTIVATION,
   .LICENSE_ERROR_ACTIVATION_LIMIT, .LICENSE_ERROR_COUNTRY, .LICENSE_ERROR_DEACTIVATION,
   .LICENSE_ERROR_FINGERPRINT_CHANGED, .LICENSE_ERROR_FINGERPRINT_INVALID,
   .LICENSE_ERROR_FLOAT_LIMIT, .LICENSE_ERROR_HOST, .LICENSE_ERROR_INVALID_ACTIVATION,
   .LICENSE_ERROR_INVALID_KEY, .LICENSE_ERROR_INVALID_OFFLINE, .LICENSE_ERROR_INVALID_TYPE,
   .LICENSE_ERROR_IO_, .LICENSE_ERROR_IP, .LICENSE_ERROR_LEASE, .LICENSE_ERROR_MALFORMED,
   .LICENSE_ERROR_NOT_FOUND, .LICENSE_ERROR_OS, .LICENSE_ERROR_OTHER,
   .LICENSE_ERROR_PERMISSIONS, .LICENSE_ERROR_SERVER_ERROR, .LICENSE_ERROR_SERVER_INVALID,
   .LICENSE_ERROR_SERVER_LICENSE_EXPIRED, .LICENSE_ERROR_SERVER_LICENSE_INVALID,
   .LICENSE_ERROR_SERVER_LICENSE_SUSPENDED, .LICENSE_ERROR_SYS_TIME, .LICENSE_ERROR_VERSION,
   .LICENSE_ERROR_VM, .LICENSE_EXPIRED, .LICENSE_GRACE_PERIOD_OVER, .LICENSE_PATH_ERROR,
   .LICENSE_REVOKED, .LICENSE_SUSPENDED, .TPOSE_CALIBRATION_DONE,
   .TPOSE_CALIBRATION_JOINTS_MISSING, .TPOSE_CALIBRATION_NO_PERSON_DETECTED,
   .TPOSE_CALIBRATION_PERSON_MOVING, .TPOSE_CALIBRATION_PERSON_NOT_FACING_CAMERA,
   .TPOSE_CALIBRATION_PROGRESSING_OK, .UNKNOWN_ERROR]

/-- Stream options (`enum wrStreamFlag`), set bitwise. -/
inductive wrStreamFlag
  | POSE_2D
  | POSE_3D
  deriving DecidableEq, Repr

/-- The explicit initialisers of `wrStreamFlag`: `0x1` and `0x2`. -/
def wrStreamFlag.val : wrStreamFlag → Nat
  | .POSE_2D => 0x1
  | .POSE_3D => 0x2

/-- Camera position (`enum wrCameraDevicePosition`). -/
inductive wrCameraDevicePosition
  | FRONT
  | BACK
  | UNKNOWN
  deriving DecidableEq, Repr

/-- Integer values of `wrCameraDevicePosition` (implicit numbering from 0). -/
def wrCameraDevicePosition.val : wrCameraDevicePosition → Nat
  | .FRONT => 0
  | .BACK => 1
  | .UNKNOWN => 2

/-- Integer properties of a wrEngineConfig (`enum wrEngineConfigPropertyInt`). -/
inductive wrEngineConfigPropertyInt
  | STREAM_FLAGS
  | TCP_LISTEN_PORT
  | IMAGE_ORIENTATION
  deriving DecidableEq, Repr

/-- Integer values of `wrEngineConfigPropertyInt` (implicit numbering from 0). -/
def wrEngineConfigPropertyInt.val : wrEngineConfigPropertyInt → Nat
  | .STREAM_FLAGS => 0
  | .TCP_LISTEN_PORT => 1
  | .IMAGE_ORIENTATION => 2

/-- String properties of a wrEngineConfig (`enum wrEngineConfigPropertyString`). -/
inductive wrEngineConfigPropertyString
  | DATA_SERVICE_NAME
  | LICENSE_STRING
  deriving DecidableEq, Repr

/-- Integer values of `wrEngineConfigPropertyString` (implicit numbering from 0). -/
def wrEngineConfigPropertyString.val : wrEngineConfigPropertyString → Nat
  | .DATA_SERVICE_NAME => 0
  | .LICENSE_STRING => 1

/-- Integer properties of a wrCameraConfig (`enum wrCameraConfigPropertyInt`). -/
inductive wrCameraConfigPropertyInt
  | WIDTH
  | HEIGHT
  deriving DecidableEq, Repr

/-- Integer values of `wrCameraConfigPropertyInt` (implicit numbering from 0). -/
def wrCameraConfigPropertyInt.val : wrCameraConfigPropertyInt → Nat
  | .WIDTH => 0
  | .HEIGHT => 1

/-- Float properties of a wrCameraConfig (`enum wrCameraConfigPropertyFloat`). -/
inductive wrCameraConfigPropertyFloat
  | FPS
  deriving DecidableEq, Repr

/-- Integer values of `wrCameraConfigPropertyFloat` (implicit numbering from 0). -/
def wrCameraConfigPropertyFloat.val : wrCameraConfigPropertyFloat → Nat
  | .FPS => 0

/-- Float array properties of a wrCameraConfig (`enum wrCameraConfigPropertyFloatArray`). -/
inductive wrCameraConfigPropertyFloatArray
  | CAMERA_MATRIX
  | GROUND_PLANE
  deriving DecidableEq, Repr

/-- Integer values of `wrCameraConfigPropertyFloatArray` (implicit numbering from 0). -/
def wrCameraConfigPropertyFloatArray.val : wrCameraConfigPropertyFloatArray → Nat
  | .CAMERA_MATRIX => 0
  | .GROUND_PLANE => 1

/-- String properties of a wrCameraConfig (`enum wrCameraConfigPropertyString`). -/
inductive wrCameraConfigPropertyString
  | DEVICE_ID
  deriving DecidableEq, Repr

/-- Integer values of `wrCameraConfigPropertyString` (implicit numbering from 0). -/
def wrCameraConfigPropertyString.val : wrCameraConfigPropertyString → Nat
  | .DEVICE_ID => 0

/-! ## Handles, pointers and values crossing the interface -/

/-- A pointer to one of the library's struct types (`wrCameraConfig*`, `wrCameraDeviceInfo*`,
`wrEngineConfig*`, `wrEngine*`), as an address. -/
abbrev Handle := Nat

/-- The null pointer (`NULL`, `nullptr`). -/
def NULL : Handle := 0

/-- A `uint32_t` / `unsigned int` value: arithmetic is modulo `2^32`. -/
def uint32 (n : Nat) : Nat := n % 4294967296

/-- A `float` argument obtained by converting an `int` literal (the only way
`Wrnch2.cpp` produces one); `val` is the integer converted. -/
structure CFloat where
  val : Int
  deriving DecidableEq, Repr

/-- Values of type `wrDetectionCallback` that occur in the program. -/
inductive DetectionCallbackPtr
  | null
  | Wrnch2_detectionCallback
  deriving DecidableEq, Repr

/-- Values of type `void*` passed as user data. -/
inductive UserDataPtr
  | null
  | addr_framesReceived
  deriving DecidableEq, Repr

/-! ## Calls made by the program -/

/-- One observable action of `Wrnch2.cpp`: a write to `std::cout` or a call of a
wrEngine.h function, with the arguments passed and the value returned.  The functions
are those `Wrnch2.cpp` calls, the remaining setter of a wrCameraConfig, and the
`Destroy` functions of the three kinds of handle it creates. -/
inductive Call
  | cout (text : String)
  | wrCameraConfig_Create (ret : Handle)
  | wrEngine_GetNumCameraDevices (ret : Nat)
  | wrCameraDeviceInfo_Create (ret : Handle)
  | wrEngine_GetCameraDeviceInfo (deviceInfoOut : Handle) (index : Nat) (ret : wrEngineCode)
  | wrCameraDeviceInfo_GetFriendlyName (info : Handle) (ret : String)
  | wrCameraDeviceInfo_GetId (info : Handle) (ret : String)
  | wrCameraDeviceInfo_GetPosition (info : Handle) (ret : wrCameraDevicePosition)
  | wrCameraConfig_SetIntProperty (config : Handle) (property : Nat) (value : Int)
      (ret : wrEngineCode)
  | wrCameraConfig_SetFloatProperty (config : Handle) (property : Nat) (value : CFloat)
      (ret : wrEngineCode)
  | wrCameraConfig_SetStringProperty (config : Handle) (property : Nat) (value : String)
      (ret : wrEngineCode)
  | wrEngineConfig_Create (ret : Handle)
  | wrEngineConfig_SetIntProperty (config : Handle) (property : Nat) (value : Int)
      (ret : wrEngineCode)
  | wrEngineConfig_SetStringProperty (config : Handle) (property : Nat) (value : String)
      (ret : wrEngineCode)
  | wrEngineConfig_SetDetectionCallback (config : Handle) (callback : DetectionCallbackPtr)
      (userData : UserDataPtr)
  | wrEngine_Create (config : Handle) (ret : wrEngineCode) (engineOut : Handle)
  | wrEngineCode_Describe (code : wrEngineCode) (ret : String)
  | wrEngine_OpenCamera (wrengine : Handle) (config : Handle) (ret : wrEngineCode)
  | wrCameraConfig_SetFloatArrayProperty (config : Handle) (property : Nat)
      (value : List CFloat) (ret : wrEngineCode)
  | wrCameraConfig_Destroy (config : Handle)
  | wrCameraDeviceInfo_Destroy (info : Handle)
  | wrEngineConfig_Destroy (config : Handle)
  deriving DecidableEq, Repr

/-- The property setters of wrEngine.h for a wrCameraConfig and a wrEngineConfig. -/
inductive Setter
  | wrCameraConfig_SetIntProperty
  | wrCameraConfig_SetFloatProperty
  | wrCameraConfig_SetFloatArrayProperty
  | wrCameraConfig_SetStringProperty
  | wrEngineConfig_SetIntProperty
  | wrEngineConfig_SetStringProperty
  deriving DecidableEq, Repr

/-- What `wrEngine_GetCameraDeviceInfo` does for one index: the code it returns and
the contents of the device info the getters read afterwards. -/
structure DeviceQuery where
  code : wrEngineCode
  friendlyName : String
  id : String
  position : wrCameraDevicePosition
  deriving DecidableEq, Repr

/-- The outcomes of the library calls, one field per wrEngine.h function `start` calls. -/
structure World where
  -- the pointer returned by `wrCameraConfig_Create()`
  cameraConfigCreate : Handle
  -- the count returned by `wrEngine_GetNumCameraDevices()`, before conversion to `uint32_t`
  numCameraDevices : Nat
  -- the pointer returned by `wrCameraDeviceInfo_Create()`
  cameraDeviceInfoCreate : Handle
  -- the outcome of `wrEngine_GetCameraDeviceInfo(deviceInfo, i)`
  getCameraDeviceInfo : Nat → DeviceQuery
  -- the code a property setter returns for a property tag
  setterCode : Setter → Nat → wrEngineCode
  -- the pointer returned by `wrEngineConfig_Create()`
  engineConfigCreate : Handle
  -- the code returned by `wrEngine_Create`
  engineCreateCode : wrEngineCode
  -- the pointer `wrEngine_Create` stores through its first argument
  engineCreateOut : Handle
  -- the text returned by `wrEngineCode_Describe`
  describe : wrEngineCode → String
  -- the code returned by `wrEngine_OpenCamera`
  openCameraCode : wrEngineCode

/-- The file-level variables of `Wrnch2.cpp`: `int framesReceived` and
`static wrEngine* engine`.  The class `Wrnch2` has no data members. -/
structure Globals where
  framesReceived : Int
  engine : Handle
  deriving DecidableEq, Repr

/-- The initial values of the file-level variables: `framesReceived` is
zero-initialised and `engine` is `nullptr`. -/
def Globals.initial : Globals := ⟨0, NULL⟩

/-- How one pass through the body of the `for` loop of `start` ends. -/
inductive Flow
  -- the end of the body or a `continue` statement: go on with `i++`
  | next
  -- a `return` statement
  | ret
  deriving DecidableEq, Repr

/-! ## `Wrnch2::start` -/

/-- The body of the `for` loop of `Wrnch2::start` (lines 23 to 85) at index `i`:
how it ends, the file-level variables afterwards, and the calls it makes in order. -/
def startBody (w : World) (licenseKey : String) (camConfig deviceInfo : Handle) (i : Nat)
    (g : Globals) : Flow × Globals × List Call :=
  let q := w.getCameraDeviceInfo i
  let code := q.code
  let ev := [Call.wrEngine_GetCameraDeviceInfo deviceInfo i code]
  if code.val ≠ wrEngineCode.OK.val then (Flow.next, g, ev) else
  let friendlyName := q.friendlyName
  let deviceId := q.id
  let position := q.position
  let ev := ev ++ [Call.wrCameraDeviceInfo_GetFriendlyName deviceInfo friendlyName,
    Call.wrCameraDeviceInfo_GetId deviceInfo deviceId,
    Call.wrCameraDeviceInfo_GetPosition deviceInfo position,
    Call.cout friendlyName,
    Call.cout deviceId]
  if position.val ≠ wrCameraDevicePosition.FRONT.val then (Flow.next, g, ev) else
  let ev := ev ++ [Call.cout "Selected camera:", Call.cout deviceId,
    Call.wrCameraConfig_SetIntProperty camConfig wrCameraConfigPropertyInt.WIDTH.val 1920
      (w.setterCode Setter.wrCameraConfig_SetIntProperty wrCameraConfigPropertyInt.WIDTH.val),
    Call.wrCameraConfig_SetIntProperty camConfig wrCameraConfigPropertyInt.HEIGHT.val 1080
      (w.setterCode Setter.wrCameraConfig_SetIntProperty wrCameraConfigPropertyInt.HEIGHT.val),
    Call.wrCameraConfig_SetFloatProperty camConfig wrCameraConfigPropertyFloat.FPS.val ⟨30⟩
      (w.setterCode Setter.wrCameraConfig_SetFloatProperty wrCameraConfigPropertyFloat.FPS.val),
    Call.wrCameraConfig_SetStringProperty camConfig wrCameraConfigPropertyString.DEVICE_ID.val
      deviceId
      (w.setterCode Setter.wrCameraConfig_SetStringProperty
        wrCameraConfigPropertyString.DEVICE_ID.val)]
  let config := w.engineConfigCreate
  let ev := ev ++ [Call.wrEngineConfig_Create config,
    Call.wrEngineConfig_SetIntProperty config wrEngineConfigPropertyInt.STREAM_FLAGS.val
      ((wrStreamFlag.POSE_2D.val ||| wrStreamFlag.POSE_3D.val : Nat) : Int)
      (w.setterCode Setter.wrEngineConfig_SetIntProperty
        wrEngineConfigPropertyInt.STREAM_FLAGS.val),
    Call.wrEngineConfig_SetStringProperty config wrEngineConfigPropertyString.LICENSE_STRING.val
      licenseKey
      (w.setterCode Setter.wrEngineConfig_SetStringProperty
        wrEngineConfigPropertyString.LICENSE_STRING.val),
    Call.cout "Setting detection callback"]
  let callback := DetectionCallbackPtr.Wrnch2_detectionCallback
  let ev := ev ++ [Call.wrEngineConfig_SetDetectionCallback config callback
      UserDataPtr.addr_framesReceived,
    Call.cout "Has set detection callback"]
  let code := w.engineCreateCode
  let g := { g with engine := w.engineCreateOut }
  let ev := ev ++ [Call.wrEngine_Create config code g.engine]
  if code.val ≠ wrEngineCode.OK.val then
    let error := w.describe code
    (Flow.ret, g, ev ++ [Call.wrEngineCode_Describe code error,
      Call.cout "wrEngine start error: ", Call.cout error])
  else
  let ev := ev ++ [Call.cout "Successfully created engine", Call.cout "Opening camera"]
  let cameraCode := w.openCameraCode
  let ev := ev ++ [Call.wrEngine_OpenCamera g.engine camConfig cameraCode]
  if cameraCode.val ≠ wrEngineCode.OK.val then
    let error := w.describe code
    (Flow.ret, g, ev ++ [Call.wrEngineCode_Describe code error,
      Call.cout "wrEngine open camera error: ", Call.cout error])
  else
  (Flow.ret, g, ev)

/-- The `for` loop of `Wrnch2::start` (line 22) from index `i`, run for at most `fuel`
tests of its condition `i < numCameras`; `none` when the fuel runs out before the
loop is left.  The increment `i++` is on an `unsigned int`. -/
def startLoop (w : World) (licenseKey : String) (camConfig deviceInfo : Handle)
    (numCameras : Nat) : Nat → Nat → Globals → Option (Globals × List Call)
  | 0, _, _ => none
  | fuel + 1, i, g =>
    if i < numCameras then
      match startBody w licenseKey camConfig deviceInfo i g with
      | (Flow.ret, g', ev) => some (g', ev)
      | (Flow.next, g', ev) =>
        match startLoop w licenseKey camConfig deviceInfo numCameras fuel (uint32 (i + 1)) g' with
        | some (g'', rest) => some (g'', ev ++ rest)
        | none => none
    else some (g, [])

/-- The function `Wrnch2::start` (lines 15 to 87) with `fuel` tests of the loop condition. -/
def startFuel (fuel : Nat) (w : World) (licenseKey : String) (g : Globals) :
    Option (Globals × List Call) :=
  let camConfig := w.cameraConfigCreate
  let numCameras := uint32 w.numCameraDevices
  let deviceInfo := w.cameraDeviceInfoCreate
  let ev := [Call.cout "Wrnch2::start method called",
    Call.wrCameraConfig_Create camConfig,
    Call.wrEngine_GetNumCameraDevices numCameras,
    Call.wrCameraDeviceInfo_Create deviceInfo]
  match startLoop w licenseKey camConfig deviceInfo numCameras fuel 0 g with
  | some (g', rest) => some (g', ev ++ rest)
  | none => none

/-- The function `Wrnch2::start`: the loop condition is tested at most `numCameras + 1` times. -/
def start (w : World) (licenseKey : String) (g : Globals) : Option (Globals × List Call) :=
  startFuel (uint32 w.numCameraDevices + 1) w licenseKey g

/-- The calls made by `Wrnch2::start`, in order (empty if the run does not return). -/
def startCalls (w : World) (licenseKey : String) (g : Globals) : List Call :=
  match start w licenseKey g with
  | some (_, ev) => ev
  | none => []

/-- The function `Wrnch2::detectionCallback` (lines 90 to 94): the file-level variables
afterwards and the text written to `std::cout`.  The frame and the user data are
pointers; `serializedDetections` is the buffer of `serializedDetectionsLen` bytes. -/
def detectionCallback (_frame : Handle) (_serializedDetections : List Nat)
    (_serializedDetectionsLen : Nat) (_userData : UserDataPtr) (g : Globals) :
    Globals × List Call :=
  (g, [Call.cout "detectionCallback()"])

/-! ## Sample worlds -/

/-- A device whose query succeeds. -/
def sampleDevice (name id : String) (position : wrCameraDevicePosition) : DeviceQuery :=
  ⟨wrEngineCode.OK, name, id, position⟩

/-- A library where every setter accepts exactly the named tags, with three cameras
(back, front, front) and the given outcomes of engine creation and camera opening. -/
def sampleWorld (createCode openCode : wrEngineCode) : World where
  cameraConfigCreate := 100
  numCameraDevices := 3
  cameraDeviceInfoCreate := 200
  getCameraDeviceInfo := fun i =>
    if i = 0 then sampleDevice "Back Camera" "cam0" wrCameraDevicePosition.BACK
    else if i = 1 then sampleDevice "Front Camera" "cam1" wrCameraDevicePosition.FRONT
    else if i = 2 then sampleDevice "Front Wide" "cam2" wrCameraDevicePosition.FRONT
    else ⟨wrEngineCode.ERR, "", "", wrCameraDevicePosition.UNKNOWN⟩
  setterCode := fun s tag =>
    match s with
    | Setter.wrCameraConfig_SetIntProperty => if tag < 2 then wrEngineCode.OK else wrEngineCode.ERR
    | Setter.wrCameraConfig_SetFloatProperty => if tag < 1 then wrEngineCode.OK else wrEngineCode.ERR
    | Setter.wrCameraConfig_SetFloatArrayProperty =>
      if tag < 2 then wrEngineCode.OK else wrEngineCode.ERR
    | Setter.wrCameraConfig_SetStringProperty => if tag < 1 then wrEngineCode.OK else wrEngineCode.ERR
    | Setter.wrEngineConfig_SetIntProperty => if tag < 3 then wrEngineCode.OK else wrEngineCode.ERR
    | Setter.wrEngineConfig_SetStringProperty => if tag < 2 then wrEngineCode.OK else wrEngineCode.ERR
  engineConfigCreate := 300
  engineCreateCode := createCode
  engineCreateOut := if createCode = wrEngineCode.OK then 400 else NULL
  describe := fun c => if c = wrEngineCode.OK then "ok" else "failure"
  openCameraCode := openCode

/-! ## Observations on the calls -/

/-- Whether a call is `wrEngine_Create`. -/
def Call.isEngineCreate : Call → Bool
  | .wrEngine_Create _ _ _ => true
  | _ => false

/-- Whether a call is `wrEngine_OpenCamera`. -/
def Call.isOpenCamera : Call → Bool
  | .wrEngine_OpenCamera _ _ _ => true
  | _ => false

/-- Whether a call passes the engine handle (a `wrEngine*` argument).  `wrEngine_Create`
takes the address of the variable `engine`, not the handle. -/
def Call.takesEngine : Call → Bool
  | .wrEngine_OpenCamera _ _ _ => true
  | _ => false

/-- The index passed, when the call is `wrEngine_GetCameraDeviceInfo`. -/
def Call.queryIndex? : Call → Option Nat
  | .wrEngine_GetCameraDeviceInfo _ i _ => some i
  | _ => none

/-- The indices passed to `wrEngine_GetCameraDeviceInfo`, in call order. -/
def queryIndices (calls : List Call) : List Nat :=
  calls.filterMap Call.queryIndex?

/-- The values of the named enumerators of the property family of each setter. -/
def Setter.namedTags : Setter → List Nat
  | .wrCameraConfig_SetIntProperty =>
    [wrCameraConfigPropertyInt.WIDTH.val, wrCameraConfigPropertyInt.HEIGHT.val]
  | .wrCameraConfig_SetFloatProperty => [wrCameraConfigPropertyFloat.FPS.val]
  | .wrCameraConfig_SetFloatArrayProperty =>
    [wrCameraConfigPropertyFloatArray.CAMERA_MATRIX.val,
     wrCameraConfigPropertyFloatArray.GROUND_PLANE.val]
  | .wrCameraConfig_SetStringProperty => [wrCameraConfigPropertyString.DEVICE_ID.val]
  | .wrEngineConfig_SetIntProperty =>
    [wrEngineConfigPropertyInt.STREAM_FLAGS.val, wrEngineConfigPropertyInt.TCP_LISTEN_PORT.val,
     wrEngineConfigPropertyInt.IMAGE_ORIENTATION.val]
  | .wrEngineConfig_SetStringProperty =>
    [wrEngineConfigPropertyString.DATA_SERVICE_NAME.val,
     wrEngineConfigPropertyString.LICENSE_STRING.val]

/-- For a property-setter call: the setter, the property tag passed and the code returned. -/
def Call.setter? : Call → Option (Setter × Nat × wrEngineCode)
  | .wrCameraConfig_SetIntProperty _ p _ r => some (.wrCameraConfig_SetIntProperty, p, r)
  | .wrCameraConfig_SetFloatProperty _ p _ r => some (.wrCameraConfig_SetFloatProperty, p, r)
  | .wrCameraConfig_SetFloatArrayProperty _ p _ r =>
    some (.wrCameraConfig_SetFloatArrayProperty, p, r)
  | .wrCameraConfig_SetStringProperty _ p _ r => some (.wrCameraConfig_SetStringProperty, p, r)
  | .wrEngineConfig_SetIntProperty _ p _ r => some (.wrEngineConfig_SetIntProperty, p, r)
  | .wrEngineConfig_SetStringProperty _ p _ r => some (.wrEngineConfig_SetStringProperty, p, r)
  | _ => none

/-- The setter and tag of every property-setter call, in call order. -/
def setterTags (calls : List Call) : List (Setter × Nat) :=
  calls.filterMap fun c => (c.setter?).map fun t => (t.1, t.2.1)

/-- The setter calls `Wrnch2::start` makes for the selected camera (lines 44 to 52). -/
def startSetterTags : List (Setter × Nat) :=
  [(.wrCameraConfig_SetIntProperty, wrCameraConfigPropertyInt.WIDTH.val),
   (.wrCameraConfig_SetIntProperty, wrCameraConfigPropertyInt.HEIGHT.val),
   (.wrCameraConfig_SetFloatProperty, wrCameraConfigPropertyFloat.FPS.val),
   (.wrCameraConfig_SetStringProperty, wrCameraConfigPropertyString.DEVICE_ID.val),
   (.wrEngineConfig_SetIntProperty, wrEngineConfigPropertyInt.STREAM_FLAGS.val),
   (.wrEngineConfig_SetStringProperty, wrEngineConfigPropertyString.LICENSE_STRING.val)]

/-- The documented contract of the property setters (header lines 453, 469, 582, 595, 632):
a setter returns `wrEngineCode_OK` exactly for the named enumerators of its family. -/
def SetterContract (w : World) : Prop :=
  ∀ (s : Setter) (tag : Nat), w.setterCode s tag = wrEngineCode.OK ↔ tag ∈ s.namedTags

/-- Whether a call changes a wrEngineConfig (a setter or `wrEngineConfig_SetDetectionCallback`). -/
def Call.mutatesEngineConfig : Call → Bool
  | .wrEngineConfig_SetIntProperty _ _ _ _ => true
  | .wrEngineConfig_SetStringProperty _ _ _ _ => true
  | .wrEngineConfig_SetDetectionCallback _ _ _ => true
  | _ => false

/-- Modelled from the spec: the contents of a wrEngineConfig (the struct is only declared in
the header): the stream flags, TCP listen port, image-orientation override, data-service
name, license string, and detection callback with its user data. -/
structure EngineConfig where
  streamFlags : Int
  tcpListenPort : Int
  imageOrientation : Int
  dataServiceName : String
  licenseString : String
  detectionCallback : DetectionCallbackPtr
  userData : UserDataPtr
  deriving DecidableEq, Repr

/-- Modelled from the spec: the effect of one call on the wrEngineConfig at address `config`
(the setters are only declared in the header): a setter stores the value under a tag of
its family, the last write wins, and a tag outside the family changes nothing. -/
def EngineConfig.apply (config : Handle) (c : EngineConfig) : Call → EngineConfig
  | .wrEngineConfig_SetIntProperty h p v _ =>
    if h ≠ config then c
    else if p = wrEngineConfigPropertyInt.STREAM_FLAGS.val then { c with streamFlags := v }
    else if p = wrEngineConfigPropertyInt.TCP_LISTEN_PORT.val then { c with tcpListenPort := v }
    else if p = wrEngineConfigPropertyInt.IMAGE_ORIENTATION.val then
      { c with imageOrientation := v }
    else c
  | .wrEngineConfig_SetStringProperty h p v _ =>
    if h ≠ config then c
    else if p = wrEngineConfigPropertyString.DATA_SERVICE_NAME.val then
      { c with dataServiceName := v }
    else if p = wrEngineConfigPropertyString.LICENSE_STRING.val then
      { c with licenseString := v }
    else c
  | .wrEngineConfig_SetDetectionCallback h cb ud =>
    if h ≠ config then c else { c with detectionCallback := cb, userData := ud }
  | _ => c

/-- The wrEngineConfig at address `config` after a sequence of calls, from contents `c`. -/
def EngineConfig.replay (config : Handle) (c : EngineConfig) (calls : List Call) :
    EngineConfig :=
  calls.foldl (EngineConfig.apply config) c

/-- Modelled from the spec: the statuses a calibration callback is invoked with (section
4.5 lists them; the calibration code is not in the repository). -/
inductive CalibrationStatus
  | progressing_ok
  | no_person_detected
  | person_moving
  | person_not_facing_camera
  | joints_missing
  | done
  deriving DecidableEq, Repr

/-- Modelled from the spec: the `wrEngineCode` enumerator reported for each status of the
list, matched by name. -/
def CalibrationStatus.code : CalibrationStatus → wrEngineCode
  | .progressing_ok => .TPOSE_CALIBRATION_PROGRESSING_OK
  | .no_person_detected => .TPOSE_CALIBRATION_NO_PERSON_DETECTED
  | .person_moving => .TPOSE_CALIBRATION_PERSON_MOVING
  | .person_not_facing_camera => .TPOSE_CALIBRATION_PERSON_NOT_FACING_CAMERA
  | .joints_missing => .TPOSE_CALIBRATION_JOINTS_MISSING
  | .done => .TPOSE_CALIBRATION_DONE

/-- The enumerators `wrEngineCode_TPOSE_CALIBRATION_*` (header lines 178 to 183). -/
def wrEngineCode.isTPoseCalibration : wrEngineCode → Bool
  | .TPOSE_CALIBRATION_DONE => true
  | .TPOSE_CALIBRATION_JOINTS_MISSING => true
  | .TPOSE_CALIBRATION_NO_PERSON_DETECTED => true
  | .TPOSE_CALIBRATION_PERSON_MOVING => true
  | .TPOSE_CALIBRATION_PERSON_NOT_FACING_CAMERA => true
  | .TPOSE_CALIBRATION_PROGRESSING_OK => true
  | _ => false

/-- Whether a call belongs to the probing of a device (lines 23 to 34): the query, the
three getters, or a write to `std::cout`. -/
def Call.isProbe : Call → Bool
  | .wrEngine_GetCameraDeviceInfo _ _ _ => true
  | .wrCameraDeviceInfo_GetFriendlyName _ _ => true
  | .wrCameraDeviceInfo_GetId _ _ => true
  | .wrCameraDeviceInfo_GetPosition _ _ => true
  | .cout _ => true
  | _ => false

/-! ## The engine object, modelled from the spec

The functions that take a `wrEngine*` are only declared in `wrEngine.h`; their
behaviour is modelled from the header comments and sections 3, 4.3 and 4.6 of the spec. -/

/-- A byte of a `char` array. -/
abbrev Byte := Nat

/-- Maximum needed buffer size for error messages (`#define wrEngine_MAX_ERR_LEN 256`). -/
def wrEngine_MAX_ERR_LEN : Nat := 256

/-- Modelled from the spec: a capture source (section 4.3; the capture code is not in the
repository): a camera opened from a camera config, or a video file opened from a path. -/
inductive CaptureSource
  | camera (config : Handle)
  | videoFile (videoPath : String)
  deriving DecidableEq, Repr

/-- Whether a capture source is a video file. -/
def CaptureSource.isVideoFile : CaptureSource → Bool
  | .videoFile _ => true
  | .camera _ => false

/-- Modelled from the spec: the state of a wrEngine instance (section 3; `struct wrEngine`
is only declared in the header): the latched error message, the serialized frame
metadata, and the capture sources that are open. -/
structure Engine where
  error : Option (List Byte)
  metadata : List Byte
  sources : List CaptureSource
  deriving DecidableEq, Repr

/-- Modelled from the spec: the engine `wrEngine_Create` makes (section 4.6: it "does not
open any capture source"), with no error latched. -/
def Engine.created (metadata : List Byte) : Engine := ⟨none, metadata, []⟩

/-- Modelled from the spec: `wrEngine_GetError` (header lines 702 to 714, section 4.6; the
function is only declared): the value returned, the contents of `outError` afterwards
and the engine afterwards.  With an error latched, the message cut to
`wrEngine_MAX_ERR_LEN - 1` bytes and one null byte overwrite the start of `outError`;
with none, nothing is written. -/
def wrEngine_GetError (wrengine : Engine) (outError : List Byte) :
    Nat × List Byte × Engine :=
  match wrengine.error with
  | none => (0, outError, wrengine)
  | some message =>
    let text := message.take (wrEngine_MAX_ERR_LEN - 1)
    (1, text ++ [0] ++ outError.drop (text.length + 1), wrengine)

/-- Modelled from the spec: `wrEngine_GetMetadataLen` (header lines 716 to 721; only
declared): the length of the serialized frame metadata. -/
def wrEngine_GetMetadataLen (wrengine : Engine) : Nat :=
  wrengine.metadata.length

/-- Modelled from the spec: `wrEngine_GetMetadata` (header lines 723 to 736, section 4.6;
only declared): the pointer returned and the contents of the array at `outData`
afterwards, where `buffer` is the array before the call. -/
def wrEngine_GetMetadata (wrengine : Engine) (outData : Handle) (buffer : List Byte)
    (outDataLen : Nat) : Handle × List Byte :=
  if outDataLen ≥ wrEngine_GetMetadataLen wrengine then
    (outData, wrengine.metadata ++ buffer.drop wrengine.metadata.length)
  else (NULL, buffer)

/-- Modelled from the spec: one transition of the capture sources of an engine (section
4.3): an open source is closed, a source starts streaming, or an attempt to open a
source fails with a code. -/
inductive SourceStep
  | closed (s : CaptureSource)
  | opened (s : CaptureSource)
  | failed (s : CaptureSource) (code : wrEngineCode)
  deriving DecidableEq, Repr

/-- The open sources after one transition. -/
def SourceStep.apply (sources : List CaptureSource) : SourceStep → List CaptureSource
  | .closed s => sources.erase s
  | .opened s => s :: sources
  | .failed _ _ => sources

/-- The open sources after a sequence of transitions. -/
def sourcesAfter (sources : List CaptureSource) (steps : List SourceStep) :
    List CaptureSource :=
  steps.foldl SourceStep.apply sources

/-- Modelled from the spec: the "close-then-open discipline" of section 4.3 (the capture
code is not in the repository): every open source is closed, then the new source is
opened; `outcome` is the code of the attempt to open it, and on failure the engine is left
with no source and the `failure` message latched (section 4.6). -/
def openSource (wrengine : Engine) (s : CaptureSource) (outcome : wrEngineCode)
    (failure : List Byte) : wrEngineCode × Engine × List SourceStep :=
  let closing := wrengine.sources.map SourceStep.closed
  if outcome.val ≠ wrEngineCode.OK.val then
    (outcome, { wrengine with sources := [], error := some failure },
      closing ++ [SourceStep.failed s outcome])
  else
    (outcome, { wrengine with sources := [s] }, closing ++ [SourceStep.opened s])

/-- Modelled from the spec: `wrEngine_OpenCamera` (header lines 639 to 653, section 4.3;
only declared): the code returned, the engine afterwards and the transitions made. -/
def wrEngine_OpenCamera (wrengine : Engine) (config : Handle) (outcome : wrEngineCode)
    (failure : List Byte) : wrEngineCode × Engine × List SourceStep :=
  openSource wrengine (CaptureSource.camera config) outcome failure

/-- Modelled from the spec: `wrEngine_OpenVideoFile` (header lines 661 to 685, section 4.3;
only declared): the code returned, the engine afterwards and the transitions made. -/
def wrEngine_OpenVideoFile (wrengine : Engine) (videoPath : String) (outcome : wrEngineCode)
    (failure : List Byte) : wrEngineCode × Engine × List SourceStep :=
  openSource wrengine (CaptureSource.videoFile videoPath) outcome failure

/-- Modelled from the spec: `wrEngine_CloseCamera` (header lines 655 to 659; section 4.3,
`close()`; only declared): it returns nothing, closes the source that is open if there is
one, and has no precondition. -/
def wrEngine_CloseCamera (wrengine : Engine) : Engine × List SourceStep :=
  ({ wrengine with sources := [] }, wrengine.sources.map SourceStep.closed)

/-- Modelled from the spec: a video file reaches the end of its input (section 4.3): the
source is drained and closed. -/
def videoFinished (wrengine : Engine) : Engine × List SourceStep :=
  ({ wrengine with sources := wrengine.sources.filter fun s => !s.isVideoFile },
    (wrengine.sources.filter CaptureSource.isVideoFile).map SourceStep.closed)

/-- An operation on the capture source of an engine, with the outcome of the attempt to
open where there is one. -/
inductive EngineOp
  | openCamera (config : Handle) (outcome : wrEngineCode) (failure : List Byte)
  | openVideoFile (videoPath : String) (outcome : wrEngineCode) (failure : List Byte)
  | closeCamera
  | videoFinished
  deriving DecidableEq, Repr

/-- The engine after an operation, and the transitions the operation makes. -/
def EngineOp.apply (wrengine : Engine) : EngineOp → Engine × List SourceStep
  | .openCamera config outcome failure =>
    (wrEngine_OpenCamera wrengine config outcome failure).2
  | .openVideoFile videoPath outcome failure =>
    (wrEngine_OpenVideoFile wrengine videoPath outcome failure).2
  | .closeCamera => wrEngine_CloseCamera wrengine
  | .videoFinished => Wrnch2Test.videoFinished wrengine

/-- The engine after a sequence of operations. -/
def Engine.run (wrengine : Engine) (ops : List EngineOp) : Engine :=
  ops.foldl (fun e op => (EngineOp.apply e op).1) wrengine

/-! ## Observations for the selection of the camera, the handles and the objects -/

/-- Whether the pass through the loop body at index `i` gets past both `continue`
statements (lines 25 and 37): the query returned OK and the position read is FRONT. -/
def World.isFront (w : World) (i : Nat) : Bool :=
  decide ((w.getCameraDeviceInfo i).code = wrEngineCode.OK ∧
    (w.getCameraDeviceInfo i).position = wrCameraDevicePosition.FRONT)

/-- Whether a call reads a wrCameraDeviceInfo (one of the three getters). -/
def Call.readsDeviceInfo : Call → Bool
  | .wrCameraDeviceInfo_GetFriendlyName _ _ => true
  | .wrCameraDeviceInfo_GetId _ _ => true
  | .wrCameraDeviceInfo_GetPosition _ _ => true
  | _ => false

/-- Whether, in a sequence of calls, every read of a wrCameraDeviceInfo has a query before
it and the latest query before it returned OK; `last` is the code of the latest query made
before the sequence, if there was one. -/
def readsFollowOk : Option wrEngineCode → List Call → Bool
  | _, [] => true
  | last, c :: rest =>
    match c with
    | .wrEngine_GetCameraDeviceInfo _ _ code => readsFollowOk (some code) rest
    | _ => (!c.readsDeviceInfo || decide (last = some wrEngineCode.OK)) &&
        readsFollowOk last rest

/-- Whether a call writes a property of a wrCameraConfig (one of its four setters). -/
def Call.writesCameraConfig : Call → Bool
  | .wrCameraConfig_SetIntProperty _ _ _ _ => true
  | .wrCameraConfig_SetFloatProperty _ _ _ _ => true
  | .wrCameraConfig_SetFloatArrayProperty _ _ _ _ => true
  | .wrCameraConfig_SetStringProperty _ _ _ _ => true
  | _ => false

/-- Modelled from the spec: the contents of a wrCameraConfig (section 3; the struct is only
declared in the header): width, height, fps, camera intrinsics, ground-plane transform
and device id. -/
structure CameraConfig where
  width : Int
  height : Int
  fps : CFloat
  cameraMatrix : List CFloat
  groundPlane : List CFloat
  deviceId : String
  deriving DecidableEq, Repr

/-- Modelled from the spec: the effect of one call on the wrCameraConfig at address `config`
(the setters are only declared in the header): a setter stores the value under a tag of
its family (9 floats for the camera matrix, 16 for the ground plane), the last write wins,
and a tag outside the family changes nothing. -/
def CameraConfig.apply (config : Handle) (c : CameraConfig) : Call → CameraConfig
  | .wrCameraConfig_SetIntProperty h p v _ =>
    if h ≠ config then c
    else if p = wrCameraConfigPropertyInt.WIDTH.val then { c with width := v }
    else if p = wrCameraConfigPropertyInt.HEIGHT.val then { c with height := v }
    else c
  | .wrCameraConfig_SetFloatProperty h p v _ =>
    if h ≠ config then c
    else if p = wrCameraConfigPropertyFloat.FPS.val then { c with fps := v }
    else c
  | .wrCameraConfig_SetFloatArrayProperty h p v _ =>
    if h ≠ config then c
    else if p = wrCameraConfigPropertyFloatArray.CAMERA_MATRIX.val then
      { c with cameraMatrix := v.take 9 }
    else if p = wrCameraConfigPropertyFloatArray.GROUND_PLANE.val then
      { c with groundPlane := v.take 16 }
    else c
  | .wrCameraConfig_SetStringProperty h p v _ =>
    if h ≠ config then c
    else if p = wrCameraConfigPropertyString.DEVICE_ID.val then { c with deviceId := v }
    else c
  | _ => c

/-- The wrCameraConfig at address `config` after a sequence of calls, from contents `c`. -/
def CameraConfig.replay (config : Handle) (c : CameraConfig) (calls : List Call) :
    CameraConfig :=
  calls.foldl (CameraConfig.apply config) c

/-- The handles a call passes to a property setter, to `wrEngine_GetCameraDeviceInfo`, to
a wrCameraDeviceInfo getter, to `wrEngineConfig_SetDetectionCallback`, to
`wrEngine_Create` or to `wrEngine_OpenCamera`. -/
def Call.handlesPassed : Call → List Handle
  | .wrEngine_GetCameraDeviceInfo h _ _ => [h]
  | .wrCameraDeviceInfo_GetFriendlyName h _ => [h]
  | .wrCameraDeviceInfo_GetId h _ => [h]
  | .wrCameraDeviceInfo_GetPosition h _ => [h]
  | .wrCameraConfig_SetIntProperty h _ _ _ => [h]
  | .wrCameraConfig_SetFloatProperty h _ _ _ => [h]
  | .wrCameraConfig_SetFloatArrayProperty h _ _ _ => [h]
  | .wrCameraConfig_SetStringProperty h _ _ _ => [h]
  | .wrEngineConfig_SetIntProperty h _ _ _ => [h]
  | .wrEngineConfig_SetStringProperty h _ _ _ => [h]
  | .wrEngineConfig_SetDetectionCallback h _ _ => [h]
  | .wrEngine_Create h _ _ => [h]
  | .wrEngine_OpenCamera e h _ => [e, h]
  | _ => []

/-- Whether a call is one of the `Destroy` functions. -/
def Call.isDestroy : Call → Bool
  | .wrCameraConfig_Destroy _ => true
  | .wrCameraDeviceInfo_Destroy _ => true
  | .wrEngineConfig_Destroy _ => true
  | _ => false

/-- A library as `sampleWorld`, out of memory: the three `Create` functions of the
configs and the device info return `NULL`. -/
def nullWorld : World :=
  { sampleWorld wrEngineCode.OK wrEngineCode.OK with
    cameraConfigCreate := NULL
    cameraDeviceInfoCreate := NULL
    engineConfigCreate := NULL }

/-- A library as `sampleWorld` where `wrEngine_Create` succeeds and stores `engineOut`. -/
def sampleWorldWithEngine (engineOut : Handle) : World :=
  { sampleWorld wrEngineCode.OK wrEngineCode.OK with engineCreateOut := engineOut }

/-- An object of class `Wrnch2` (Wrnch2.hpp lines 14 to 19).  The class has no data
members, so an object is told from another by its address only. -/
structure Wrnch2 where
  address : Nat
  deriving DecidableEq, Repr

/-- The member function `Wrnch2::start` called on an object: it uses no member of the
object, only the file-level variables. -/
def Wrnch2.start (_this : Wrnch2) (w : World) (licenseKey : String) (g : Globals) :
    Option (Globals × List Call) :=
  Wrnch2Test.start w licenseKey g

/-- The engine handle an object has: the class has no member for it, `start` stores it in
the file-level variable `engine` (line 64). -/
def Wrnch2.engine (_this : Wrnch2) (g : Globals) : Handle :=
  g.engine

/-- Two objects run `start` one after the other; the file-level variables afterwards. -/
def startTwo (a b : Wrnch2) (wa wb : World) (keyA keyB : String) (g : Globals) :
    Option Globals :=
  match a.start wa keyA g with
  | none => none
  | some (g1, _) =>
    match b.start wb keyB g1 with
    | none => none
    | some (g2, _) => some g2

/-! # Theorems -/

/-! ## The return codes -/

theorem wrEngineCode.mem_enumerators (c : wrEngineCode) : c ∈ wrEngineCode.enumerators := by
  cases c <;> simp [wrEngineCode.enumerators]

theorem wrEngineCode.val_injective : Function.Injective wrEngineCode.val := by
  intro a b h
  cases a <;> cases b <;> first | rfl | (exact absurd h (by decide))

theorem wrEngineCode.val_ne_OK_iff (c : wrEngineCode) :
    c.val ≠ wrEngineCode.OK.val ↔ c ≠ wrEngineCode.OK :=
  not_congr ⟨fun h => wrEngineCode.val_injective h, fun h => by rw [h]⟩

/-- C5: the 44 enumerators of `wrEngineCode` have pairwise different integer values;
`wrEngineCode_OK` has value 0 and is the only one that has it, the other 43 are nonzero;
so the test `code != wrEngineCode_OK` (a comparison of values) is true exactly for the
enumerators other than `wrEngineCode_OK`, and two different codes never compare equal. -/
theorem wrEngineCode_values_distinct :
    Function.Injective wrEngineCode.val ∧
    (∀ c : wrEngineCode, c ∈ wrEngineCode.enumerators) ∧
    wrEngineCode.enumerators.Nodup ∧
    wrEngineCode.enumerators.length = 44 ∧
    (wrEngineCode.enumerators.map wrEngineCode.val).Nodup ∧
    wrEngineCode.OK.val = 0 ∧
    (∀ c : wrEngineCode, c.val = 0 ↔ c = wrEngineCode.OK) ∧
    (wrEngineCode.enumerators.filter fun c => decide (c.val ≠ 0)).length = 43 ∧
    (wrEngineCode.enumerators.filter fun c => decide (c.val ≠ 0)) =
      wrEngineCode.enumerators.filter (fun c => decide (c ≠ wrEngineCode.OK)) ∧
    (∀ c : wrEngineCode, c.val ≠ wrEngineCode.OK.val ↔ c ≠ wrEngineCode.OK) ∧
    (∀ a b : wrEngineCode, a ≠ b → a.val ≠ b.val) := by
  refine ⟨wrEngineCode.val_injective, wrEngineCode.mem_enumerators, by decide, rfl, by decide,
    rfl, ?_, by decide, by decide, wrEngineCode.val_ne_OK_iff, ?_⟩
  · intro c
    exact ⟨fun h => wrEngineCode.val_injective h, fun h => by rw [h]; rfl⟩
  · intro a b hab h
    exact hab (wrEngineCode.val_injective h)

/-! ## The loop of `start` -/

theorem wrCameraDevicePosition.position_val_injective :
    Function.Injective wrCameraDevicePosition.val := by
  intro a b h
  cases a <;> cases b <;> first | rfl | (exact absurd h (by decide))

theorem uint32_of_lt {n : Nat} (h : n < 4294967296) : uint32 n = n :=
  Nat.mod_eq_of_lt h

theorem uint32_lt (n : Nat) : uint32 n < 4294967296 :=
  Nat.mod_lt _ (by decide)

/-- A pass through the loop body that ends in `continue` leaves the file-level
variables as they were. -/
theorem startBody_next_globals (w : World) (key : String) (cc di : Handle) (i : Nat)
    (g : Globals) (h : (startBody w key cc di i g).1 = Flow.next) :
    (startBody w key cc di i g).2.1 = g := by
  unfold startBody at h ⊢
  simp only [] at h ⊢
  split_ifs at h ⊢ <;> simp_all

/-- The calls of the passes `i, i+1, ..., i+m-1` through the loop body. -/
theorem startLoop_closed (w : World) (key : String) (cc di : Handle) (n : Nat)
    (hn : n < 4294967296) (g : Globals) :
    ∀ (fuel i : Nat), i ≤ n → n - i < fuel →
      ∃ m, i + m ≤ n ∧
        (∀ j, i ≤ j → j < i + m → (startBody w key cc di j g).1 = Flow.next) ∧
        ((i + m = n ∧ startLoop w key cc di n fuel i g =
            some (g, (List.range' i m).flatMap fun j => (startBody w key cc di j g).2.2)) ∨
         (i + m < n ∧ (startBody w key cc di (i + m) g).1 = Flow.ret ∧
          startLoop w key cc di n fuel i g =
            some ((startBody w key cc di (i + m) g).2.1,
              ((List.range' i m).flatMap fun j => (startBody w key cc di j g).2.2) ++
                (startBody w key cc di (i + m) g).2.2))) := by
  intro fuel
  induction fuel with
  | zero => intro i _ h; omega
  | succ fuel ih =>
    intro i hi hf
    by_cases hlt : i < n
    · rcases hb : startBody w key cc di i g with ⟨fl, g', ev⟩
      cases fl with
      | ret =>
        refine ⟨0, by omega, fun j h1 h2 => by omega, Or.inr ⟨by omega, ?_, ?_⟩⟩
        · simp [hb]
        · simp [startLoop, hlt, hb]
      | next =>
        have hg : g' = g := by
          have := startBody_next_globals w key cc di i g (by rw [hb])
          rw [hb] at this
          exact this
        subst hg
        have hu : uint32 (i + 1) = i + 1 := uint32_of_lt (by omega)
        obtain ⟨m, hm, hnext, hres⟩ := ih (i + 1) (by omega) (by omega)
        refine ⟨m + 1, by omega, ?_, ?_⟩
        · intro j h1 h2
          by_cases hj : j = i
          · subst hj; rw [hb]
          · exact hnext j (by omega) (by omega)
        · rcases hres with ⟨h1, h2⟩ | ⟨h1, h2, h3⟩
          · left
            refine ⟨by omega, ?_⟩
            simp [startLoop, hlt, hb, hu, h2, List.range'_succ]
          · right
            have e : i + (m + 1) = i + 1 + m := by omega
            refine ⟨by omega, by rw [e]; exact h2, ?_⟩
            rw [e]
            simp [startLoop, hlt, hb, hu, h3, List.range'_succ]
    · have hin : i = n := by omega
      refine ⟨0, by omega, fun j h1 h2 => by omega, Or.inl ⟨by omega, ?_⟩⟩
      simp [startLoop, hlt]

theorem Call.isProbe_facts {e : Call} (h : e.isProbe = true) :
    e.isEngineCreate = false ∧ e.isOpenCamera = false ∧ e.takesEngine = false ∧
      e.setter? = none ∧ e.mutatesEngineConfig = false := by
  cases e <;> simp_all [Call.isProbe, Call.isEngineCreate, Call.isOpenCamera, Call.takesEngine,
    Call.setter?, Call.mutatesEngineConfig]

/-- Every pass through the loop body queries the device info exactly once, at its index. -/
theorem startBody_queryIndices (w : World) (key : String) (cc di : Handle) (i : Nat)
    (g : Globals) : queryIndices (startBody w key cc di i g).2.2 = [i] := by
  unfold startBody
  simp only []
  split_ifs <;> simp [queryIndices, Call.queryIndex?]

/-- A pass that ends in `continue` only probes the device. -/
theorem startBody_next_probe (w : World) (key : String) (cc di : Handle) (i : Nat)
    (g : Globals) (h : (startBody w key cc di i g).1 = Flow.next) :
    ∀ e ∈ (startBody w key cc di i g).2.2, e.isProbe = true := by
  unfold startBody at h ⊢
  simp only [] at h ⊢
  split_ifs at h ⊢ <;> simp_all [Call.isProbe]

/-- The calls of a pass that ends in `return`: the device was read with code OK and
position FRONT, the camera and engine configs are filled in, the engine is created, and
what follows depends on the codes of `wrEngine_Create` and `wrEngine_OpenCamera`. -/
theorem startBody_ret_events (w : World) (key : String) (cc di : Handle) (i : Nat)
    (g : Globals) (h : (startBody w key cc di i g).1 = Flow.ret) :
    (w.getCameraDeviceInfo i).code = wrEngineCode.OK ∧
    (w.getCameraDeviceInfo i).position = wrCameraDevicePosition.FRONT ∧
    (startBody w key cc di i g).2.1 = { g with engine := w.engineCreateOut } ∧
    (startBody w key cc di i g).2.2 =
      [Call.wrEngine_GetCameraDeviceInfo di i (w.getCameraDeviceInfo i).code,
       Call.wrCameraDeviceInfo_GetFriendlyName di (w.getCameraDeviceInfo i).friendlyName,
       Call.wrCameraDeviceInfo_GetId di (w.getCameraDeviceInfo i).id,
       Call.wrCameraDeviceInfo_GetPosition di (w.getCameraDeviceInfo i).position,
       Call.cout (w.getCameraDeviceInfo i).friendlyName,
       Call.cout (w.getCameraDeviceInfo i).id,
       Call.cout "Selected camera:",
       Call.cout (w.getCameraDeviceInfo i).id,
       Call.wrCameraConfig_SetIntProperty cc wrCameraConfigPropertyInt.WIDTH.val 1920
         (w.setterCode Setter.wrCameraConfig_SetIntProperty wrCameraConfigPropertyInt.WIDTH.val),
       Call.wrCameraConfig_SetIntProperty cc wrCameraConfigPropertyInt.HEIGHT.val 1080
         (w.setterCode Setter.wrCameraConfig_SetIntProperty wrCameraConfigPropertyInt.HEIGHT.val),
       Call.wrCameraConfig_SetFloatProperty cc wrCameraConfigPropertyFloat.FPS.val ⟨30⟩
         (w.setterCode Setter.wrCameraConfig_SetFloatProperty
           wrCameraConfigPropertyFloat.FPS.val),
       Call.wrCameraConfig_SetStringProperty cc wrCameraConfigPropertyString.DEVICE_ID.val
         (w.getCameraDeviceInfo i).id
         (w.setterCode Setter.wrCameraConfig_SetStringProperty
           wrCameraConfigPropertyString.DEVICE_ID.val),
       Call.wrEngineConfig_Create w.engineConfigCreate,
       Call.wrEngineConfig_SetIntProperty w.engineConfigCreate
         wrEngineConfigPropertyInt.STREAM_FLAGS.val
         ((wrStreamFlag.POSE_2D.val ||| wrStreamFlag.POSE_3D.val : Nat) : Int)
         (w.setterCode Setter.wrEngineConfig_SetIntProperty
           wrEngineConfigPropertyInt.STREAM_FLAGS.val),
       Call.wrEngineConfig_SetStringProperty w.engineConfigCreate
         wrEngineConfigPropertyString.LICENSE_STRING.val key
         (w.setterCode Setter.wrEngineConfig_SetStringProperty
           wrEngineConfigPropertyString.LICENSE_STRING.val),
       Call.cout "Setting detection callback",
       Call.wrEngineConfig_SetDetectionCallback w.engineConfigCreate
         DetectionCallbackPtr.Wrnch2_detectionCallback UserDataPtr.addr_framesReceived,
       Call.cout "Has set detection callback"] ++
      Call.wrEngine_Create w.engineConfigCreate w.engineCreateCode w.engineCreateOut ::
      (if w.engineCreateCode ≠ wrEngineCode.OK then
        [Call.wrEngineCode_Describe w.engineCreateCode (w.describe w.engineCreateCode),
         Call.cout "wrEngine start error: ", Call.cout (w.describe w.engineCreateCode)]
      else
        [Call.cout "Successfully created engine", Call.cout "Opening camera",
         Call.wrEngine_OpenCamera w.engineCreateOut cc w.openCameraCode] ++
        (if w.openCameraCode ≠ wrEngineCode.OK then
          [Call.wrEngineCode_Describe w.engineCreateCode (w.describe w.engineCreateCode),
           Call.cout "wrEngine open camera error: ",
           Call.cout (w.describe w.engineCreateCode)]
        else [])) := by
  have hv := wrEngineCode.val_ne_OK_iff
  unfold startBody at h ⊢
  simp only [] at h ⊢
  split_ifs at h ⊢ <;> simp_all
  all_goals exact wrCameraDevicePosition.position_val_injective (by assumption)

theorem queryIndices_append (a b : List Call) :
    queryIndices (a ++ b) = queryIndices a ++ queryIndices b := by
  simp [queryIndices, List.filterMap_append]

theorem queryIndices_flatMap_range' (f : Nat → List Call)
    (hf : ∀ j, queryIndices (f j) = [j]) :
    ∀ (m i : Nat), queryIndices ((List.range' i m).flatMap f) = List.range' i m := by
  intro m
  induction m with
  | zero => intro i; simp [queryIndices]
  | succ m ih =>
    intro i
    rw [List.range'_succ, List.flatMap_cons, queryIndices_append, hf, ih]
    rfl

/-- The shape of every run of `start`: it returns; it first makes the four calls of
lines 16 to 20, then probes the devices `0, ..., m-1` and skips each of them, and then
either the loop ends (`m` is the camera count) or the pass at index `m` returns. -/
theorem start_shape (w : World) (key : String) (g : Globals) :
    ∃ (m : Nat) (skipped : List Call), m ≤ uint32 w.numCameraDevices ∧
      queryIndices skipped = List.range m ∧
      (∀ e ∈ skipped, e.isProbe = true) ∧
      (∀ j, j < m →
        (startBody w key w.cameraConfigCreate w.cameraDeviceInfoCreate j g).1 = Flow.next) ∧
      ((m = uint32 w.numCameraDevices ∧
        start w key g = some (g,
          [Call.cout "Wrnch2::start method called",
           Call.wrCameraConfig_Create w.cameraConfigCreate,
           Call.wrEngine_GetNumCameraDevices (uint32 w.numCameraDevices),
           Call.wrCameraDeviceInfo_Create w.cameraDeviceInfoCreate] ++ skipped)) ∨
       (m < uint32 w.numCameraDevices ∧
        (startBody w key w.cameraConfigCreate w.cameraDeviceInfoCreate m g).1 = Flow.ret ∧
        start w key g =
          some ((startBody w key w.cameraConfigCreate w.cameraDeviceInfoCreate m g).2.1,
            [Call.cout "Wrnch2::start method called",
             Call.wrCameraConfig_Create w.cameraConfigCreate,
             Call.wrEngine_GetNumCameraDevices (uint32 w.numCameraDevices),
             Call.wrCameraDeviceInfo_Create w.cameraDeviceInfoCreate] ++
            (skipped ++
              (startBody w key w.cameraConfigCreate w.cameraDeviceInfoCreate m g).2.2)))) := by
  obtain ⟨m, hm, hnext, hres⟩ :=
    startLoop_closed w key w.cameraConfigCreate w.cameraDeviceInfoCreate
      (uint32 w.numCameraDevices) (uint32_lt _) g (uint32 w.numCameraDevices + 1) 0
      (Nat.zero_le _) (by omega)
  refine ⟨m, (List.range' 0 m).flatMap fun j =>
    (startBody w key w.cameraConfigCreate w.cameraDeviceInfoCreate j g).2.2, by omega, ?_, ?_,
    fun j hj => hnext j (Nat.zero_le _) (by omega), ?_⟩
  · rw [queryIndices_flatMap_range' _ (fun j => startBody_queryIndices w key _ _ j g),
      List.range_eq_range']
  · intro e he
    obtain ⟨j, hj, hej⟩ := List.mem_flatMap.mp he
    have hj' := List.mem_range'_1.mp hj
    exact startBody_next_probe w key _ _ j g (hnext j hj'.1 (by omega)) e hej
  · rcases hres with ⟨h1, h2⟩ | ⟨h1, h2, h3⟩
    · left
      refine ⟨by omega, ?_⟩
      simp only [start, startFuel, h2]
    · right
      rw [Nat.zero_add] at h2 h3
      refine ⟨by omega, h2, ?_⟩
      simp only [start, startFuel, h3]

theorem startCalls_of_eq {w : World} {key : String} {g : Globals} {r : Globals × List Call}
    (h : start w key g = some r) : startCalls w key g = r.2 := by
  unfold startCalls
  rw [h]

/-- The calls of a run of `start`, in the two cases of `start_shape`. -/
theorem startCalls_cases (w : World) (key : String) (g : Globals) :
    ∃ (m : Nat) (skipped : List Call), m ≤ uint32 w.numCameraDevices ∧
      queryIndices skipped = List.range m ∧
      (∀ e ∈ skipped, e.isProbe = true) ∧
      (∀ j, j < m →
        (startBody w key w.cameraConfigCreate w.cameraDeviceInfoCreate j g).1 = Flow.next) ∧
      ((m = uint32 w.numCameraDevices ∧
        start w key g = some (g, startCalls w key g) ∧
        startCalls w key g =
          [Call.cout "Wrnch2::start method called",
           Call.wrCameraConfig_Create w.cameraConfigCreate,
           Call.wrEngine_GetNumCameraDevices (uint32 w.numCameraDevices),
           Call.wrCameraDeviceInfo_Create w.cameraDeviceInfoCreate] ++ skipped) ∨
       (m < uint32 w.numCameraDevices ∧
        (startBody w key w.cameraConfigCreate w.cameraDeviceInfoCreate m g).1 = Flow.ret ∧
        start w key g = some ({ g with engine := w.engineCreateOut }, startCalls w key g) ∧
        startCalls w key g =
          [Call.cout "Wrnch2::start method called",
           Call.wrCameraConfig_Create w.cameraConfigCreate,
           Call.wrEngine_GetNumCameraDevices (uint32 w.numCameraDevices),
           Call.wrCameraDeviceInfo_Create w.cameraDeviceInfoCreate] ++
          (skipped ++
            (startBody w key w.cameraConfigCreate w.cameraDeviceInfoCreate m g).2.2))) := by
  obtain ⟨m, skipped, hm, hq, hp, hn, hres⟩ := start_shape w key g
  refine ⟨m, skipped, hm, hq, hp, hn, ?_⟩
  rcases hres with ⟨h1, h2⟩ | ⟨h1, h2, h3⟩
  · left
    have hc := startCalls_of_eq h2
    exact ⟨h1, by rw [hc]; exact h2, hc⟩
  · right
    have hc := startCalls_of_eq h3
    have hg := (startBody_ret_events w key _ _ m g h2).2.2.1
    refine ⟨h1, h2, ?_, hc⟩
    rw [hc, h3, hg]

/-- Every run of `start` returns, and `startCalls` lists the calls it made. -/
theorem start_returns (w : World) (key : String) (g : Globals) :
    ∃ g', start w key g = some (g', startCalls w key g) := by
  obtain ⟨m, skipped, -, -, -, -, hres⟩ := startCalls_cases w key g
  rcases hres with ⟨-, h, -⟩ | ⟨-, -, h, -⟩
  · exact ⟨_, h⟩
  · exact ⟨_, h⟩

/-! ## Device queries -/

/-- C3: in every run of `start`, for the camera count `n` that
`wrEngine_GetNumCameraDevices` returned, the indices passed to
`wrEngine_GetCameraDeviceInfo` are `0, 1, ..., k-1` in this order for some `k ≤ n`: each
is below `n`, they strictly increase from 0, none is repeated, and for `n = 0` there is
no such call. -/
theorem start_queries_below_count (w : World) (key : String) (g : Globals) :
    (∃ g', start w key g = some (g', startCalls w key g)) ∧
    Call.wrEngine_GetNumCameraDevices (uint32 w.numCameraDevices) ∈ startCalls w key g ∧
    (∃ k, k ≤ uint32 w.numCameraDevices ∧
      queryIndices (startCalls w key g) = List.range k) ∧
    (∀ i ∈ queryIndices (startCalls w key g), i < uint32 w.numCameraDevices) ∧
    (queryIndices (startCalls w key g)).Pairwise (fun a b => a < b) ∧
    (queryIndices (startCalls w key g)).Nodup ∧
    (∀ i, i < (queryIndices (startCalls w key g)).length →
      (queryIndices (startCalls w key g))[i]? = some i) ∧
    (uint32 w.numCameraDevices = 0 → queryIndices (startCalls w key g) = []) := by
  have hk : ∃ k, k ≤ uint32 w.numCameraDevices ∧
      queryIndices (startCalls w key g) = List.range k := by
    obtain ⟨m, skipped, hm, hq, -, -, hres⟩ := startCalls_cases w key g
    rcases hres with ⟨-, -, hc⟩ | ⟨hlt, -, -, hc⟩
    · refine ⟨m, hm, ?_⟩
      rw [hc, queryIndices_append, hq]
      simp [queryIndices, Call.queryIndex?]
    · refine ⟨m + 1, by omega, ?_⟩
      rw [hc, queryIndices_append, queryIndices_append, hq, startBody_queryIndices,
        List.range_succ]
      simp [queryIndices, Call.queryIndex?]
  have hmem : Call.wrEngine_GetNumCameraDevices (uint32 w.numCameraDevices) ∈
      startCalls w key g := by
    obtain ⟨m, skipped, -, -, -, -, hres⟩ := startCalls_cases w key g
    rcases hres with ⟨-, -, hc⟩ | ⟨-, -, -, hc⟩ <;> rw [hc] <;> simp
  obtain ⟨k, hkn, hk⟩ := hk
  refine ⟨start_returns w key g, hmem, ⟨k, hkn, hk⟩, ?_, ?_, ?_, ?_, ?_⟩
  · intro i hi
    rw [hk, List.mem_range] at hi
    omega
  · rw [hk]
    exact List.pairwise_lt_range k
  · rw [hk]
    exact List.nodup_range k
  · intro i hi
    rw [hk] at hi ⊢
    rw [List.length_range] at hi
    simp [hi]
  · intro h0
    rw [hk]
    have : k = 0 := by omega
    rw [this]
    rfl

/-! ## Engine creation and camera opening -/

/-- C1: in a run of `start` where `wrEngine_Create` is called and returns the code `c`
(whatever the device queries returned), `wrEngine_OpenCamera` is called if and only if
`c` is `wrEngineCode_OK`; when `c` is another code no call takes the engine handle, and
the run ends, after `wrEngine_Create`, with `wrEngineCode_Describe(c)` and the output of
"wrEngine start error: " followed by that description, and returns. -/
theorem start_open_camera_iff_create_ok (w : World) (key : String) (g : Globals)
    (config : Handle) (c : wrEngineCode) (eng : Handle)
    (h : Call.wrEngine_Create config c eng ∈ startCalls w key g) :
    ((∃ e ∈ startCalls w key g, e.isOpenCamera = true) ↔ c = wrEngineCode.OK) ∧
    (c ≠ wrEngineCode.OK →
      (∀ e ∈ startCalls w key g, e.takesEngine = false) ∧
      ∃ g' pre, start w key g = some (g', startCalls w key g) ∧
        startCalls w key g = pre ++ [Call.wrEngine_Create config c eng,
          Call.wrEngineCode_Describe c (w.describe c),
          Call.cout "wrEngine start error: ", Call.cout (w.describe c)]) := by
  obtain ⟨m, skipped, -, -, hp, -, hres⟩ := startCalls_cases w key g
  have hsk : ∀ e ∈ skipped, e.isEngineCreate = false ∧ e.isOpenCamera = false ∧
      e.takesEngine = false := fun e he =>
    ⟨(Call.isProbe_facts (hp e he)).1, (Call.isProbe_facts (hp e he)).2.1,
      (Call.isProbe_facts (hp e he)).2.2.1⟩
  rcases hres with ⟨-, -, hc⟩ | ⟨-, hret, hst, hc⟩
  · exfalso
    rw [hc] at h
    simp only [List.mem_append, List.mem_cons, List.mem_singleton, List.not_mem_nil,
      or_false, reduceCtorEq, false_or] at h
    have := (hsk _ h).1
    simp [Call.isEngineCreate] at this
  · obtain ⟨-, -, -, hev⟩ := startBody_ret_events w key _ _ m g hret
    rw [hev] at hc
    have hcfg : config = w.engineConfigCreate ∧ c = w.engineCreateCode ∧
        eng = w.engineCreateOut := by
      rw [hc] at h
      simp only [List.mem_append, List.mem_cons, List.mem_singleton, List.not_mem_nil,
        or_false, reduceCtorEq, false_or, Call.wrEngine_Create.injEq] at h
      rcases h with h | h | h
      · have := (hsk _ h).1
        simp [Call.isEngineCreate] at this
      · exact h
      · split_ifs at h <;> simp at h
    obtain ⟨rfl, rfl, rfl⟩ := hcfg
    by_cases hok : w.engineCreateCode = wrEngineCode.OK
    · refine ⟨⟨fun _ => hok, fun _ => ?_⟩, fun hne => absurd hok hne⟩
      refine ⟨Call.wrEngine_OpenCamera w.engineCreateOut w.cameraConfigCreate
        w.openCameraCode, ?_, rfl⟩
      rw [hc]
      simp [hok]
    · refine ⟨⟨fun ⟨e, he, hopen⟩ => ?_, fun hh => absurd hh hok⟩, fun _ => ⟨?_, ?_⟩⟩
      · exfalso
        rw [hc] at he
        simp only [hok, ne_eq, not_false_eq_true, if_true, List.mem_append, List.mem_cons,
          List.mem_singleton, List.not_mem_nil, or_false] at he
        rcases he with he | he | he | he
        · rcases he with rfl | rfl | rfl | rfl <;> simp [Call.isOpenCamera] at hopen
        · have := (hsk _ he).2.1
          rw [this] at hopen
          exact Bool.noConfusion hopen
        · rcases he with rfl | rfl | rfl | rfl | rfl | rfl | rfl | rfl | rfl | rfl | rfl |
            rfl | rfl | rfl | rfl | rfl | rfl | rfl <;> simp [Call.isOpenCamera] at hopen
        · rcases he with rfl | rfl | rfl | rfl <;> simp [Call.isOpenCamera] at hopen
      · intro e he
        rw [hc] at he
        simp only [hok, ne_eq, not_false_eq_true, if_true, List.mem_append, List.mem_cons,
          List.mem_singleton, List.not_mem_nil, or_false] at he
        rcases he with he | he | he | he
        · rcases he with rfl | rfl | rfl | rfl <;> rfl
        · exact (hsk _ he).2.2
        · rcases he with rfl | rfl | rfl | rfl | rfl | rfl | rfl | rfl | rfl | rfl | rfl |
            rfl | rfl | rfl | rfl | rfl | rfl | rfl <;> rfl
        · rcases he with rfl | rfl | rfl | rfl <;> rfl
      · have hsplit : ∀ (a b c t : List Call) (x : Call),
            a ++ (b ++ (c ++ x :: t)) = (a ++ (b ++ c)) ++ x :: t := by
          intros; simp
        exact ⟨_, _, hst, by
          rw [hc]
          simp only [hok, ne_eq, not_false_eq_true, if_true]
          exact hsplit _ _ _ _ _⟩

theorem start_open_camera_iff_create_ok_witness :
    Call.wrEngine_Create 300 wrEngineCode.LICENSE_EXPIRED NULL ∈
        startCalls (sampleWorld wrEngineCode.LICENSE_EXPIRED wrEngineCode.OK) "KEY"
          Globals.initial ∧
      wrEngineCode.LICENSE_EXPIRED ≠ wrEngineCode.OK ∧
      (∀ e ∈ startCalls (sampleWorld wrEngineCode.LICENSE_EXPIRED wrEngineCode.OK) "KEY"
          Globals.initial, e.takesEngine = false) :=
  ⟨by decide, by decide,
    ((start_open_camera_iff_create_ok (sampleWorld wrEngineCode.LICENSE_EXPIRED wrEngineCode.OK)
      "KEY" Globals.initial 300 wrEngineCode.LICENSE_EXPIRED NULL (by decide)).2
        (by decide)).1⟩

/-! ## Property setters -/

/-- C4: every property-setter call of a run of `start` passes a tag that is a named
enumerator of the family of that setter: it is one of WIDTH or HEIGHT to
`wrCameraConfig_SetIntProperty`, FPS to `wrCameraConfig_SetFloatProperty`, DEVICE_ID to
`wrCameraConfig_SetStringProperty`, STREAM_FLAGS to `wrEngineConfig_SetIntProperty`,
LICENSE_STRING to `wrEngineConfig_SetStringProperty`; the code the call returns (which
`start` ignores) is the one the library gives for that setter and tag, so under the
documented setter contract it is `wrEngineCode_OK`. -/
theorem start_setter_tags_named (w : World) (key : String) (g : Globals) (e : Call)
    (s : Setter) (tag : Nat) (ret : wrEngineCode) (he : e ∈ startCalls w key g)
    (hs : e.setter? = some (s, tag, ret)) :
    (s, tag) ∈ startSetterTags ∧ tag ∈ s.namedTags ∧ ret = w.setterCode s tag ∧
      (SetterContract w → ret = wrEngineCode.OK) := by
  have main : (s, tag) ∈ startSetterTags ∧ tag ∈ s.namedTags ∧ ret = w.setterCode s tag := by
    obtain ⟨m, skipped, -, -, hp, -, hres⟩ := startCalls_cases w key g
    have hsk : ∀ e ∈ skipped, e.setter? = none := fun e he =>
      (Call.isProbe_facts (hp e he)).2.2.2.1
    rcases hres with ⟨-, -, hc⟩ | ⟨-, hret, -, hc⟩
    · exfalso
      rw [hc] at he
      simp only [List.mem_append, List.mem_cons, List.mem_singleton, List.not_mem_nil,
        or_false] at he
      rcases he with he | he
      · rcases he with rfl | rfl | rfl | rfl <;> simp [Call.setter?] at hs
      · rw [hsk _ he] at hs
        exact Option.noConfusion hs
    · obtain ⟨-, -, -, hev⟩ := startBody_ret_events w key _ _ m g hret
      rw [hev] at hc
      rw [hc] at he
      simp only [List.mem_append, List.mem_cons, List.mem_singleton, List.not_mem_nil,
        or_false] at he
      rcases he with he | he | he | he
      · rcases he with rfl | rfl | rfl | rfl <;> simp [Call.setter?] at hs
      · rw [hsk _ he] at hs
        exact Option.noConfusion hs
      · rcases he with rfl | rfl | rfl | rfl | rfl | rfl | rfl | rfl | rfl | rfl | rfl |
          rfl | rfl | rfl | rfl | rfl | rfl | rfl <;>
          simp only [Call.setter?, reduceCtorEq, Option.some.injEq, Prod.mk.injEq] at hs <;>
          obtain ⟨rfl, rfl, rfl⟩ := hs <;>
          simp [startSetterTags, Setter.namedTags]
      · rcases he with rfl | he
        · simp [Call.setter?] at hs
        · split_ifs at he
          · simp only [List.mem_cons, List.mem_singleton, List.not_mem_nil, or_false] at he
            rcases he with rfl | rfl | rfl <;> simp [Call.setter?] at hs
          · simp only [List.mem_append, List.mem_cons, List.mem_singleton,
              List.not_mem_nil, or_false] at he
            rcases he with (rfl | rfl | rfl) | (rfl | rfl | rfl) <;>
              simp [Call.setter?] at hs
          · simp only [List.mem_append, List.mem_cons, List.mem_singleton,
              List.not_mem_nil, or_false] at he
            rcases he with rfl | rfl | rfl <;> simp [Call.setter?] at hs
  refine ⟨main.1, main.2.1, main.2.2, fun hcontract => ?_⟩
  rw [main.2.2]
  exact (hcontract s tag).mpr main.2.1

theorem sampleWorld_contract (a b : wrEngineCode) : SetterContract (sampleWorld a b) := by
  intro s tag
  cases s <;>
    simp only [sampleWorld, Setter.namedTags, wrCameraConfigPropertyInt.val,
      wrCameraConfigPropertyFloat.val, wrCameraConfigPropertyFloatArray.val, wrCameraConfigPropertyString.val,
      wrEngineConfigPropertyInt.val, wrEngineConfigPropertyString.val, List.mem_cons,
      List.mem_singleton, List.not_mem_nil, or_false] <;>
    split_ifs <;> simp <;> omega

theorem start_setter_tags_named_witness :
    Call.wrCameraConfig_SetIntProperty 100 wrCameraConfigPropertyInt.HEIGHT.val 1080
        wrEngineCode.OK ∈
        startCalls (sampleWorld wrEngineCode.OK wrEngineCode.OK) "KEY" Globals.initial ∧
      SetterContract (sampleWorld wrEngineCode.OK wrEngineCode.OK) ∧
      wrCameraConfigPropertyInt.HEIGHT.val ∈
        Setter.wrCameraConfig_SetIntProperty.namedTags ∧
      wrEngineCode.OK = wrEngineCode.OK :=
  ⟨by decide, sampleWorld_contract _ _,
    (start_setter_tags_named (sampleWorld wrEngineCode.OK wrEngineCode.OK) "KEY"
      Globals.initial
      (Call.wrCameraConfig_SetIntProperty 100 wrCameraConfigPropertyInt.HEIGHT.val 1080
        wrEngineCode.OK)
      Setter.wrCameraConfig_SetIntProperty wrCameraConfigPropertyInt.HEIGHT.val
      wrEngineCode.OK (by decide) rfl).2.1,
    (start_setter_tags_named (sampleWorld wrEngineCode.OK wrEngineCode.OK) "KEY"
      Globals.initial
      (Call.wrCameraConfig_SetIntProperty 100 wrCameraConfigPropertyInt.HEIGHT.val 1080
        wrEngineCode.OK)
      Setter.wrCameraConfig_SetIntProperty wrCameraConfigPropertyInt.HEIGHT.val
      wrEngineCode.OK (by decide) rfl).2.2.2 (sampleWorld_contract _ _)⟩

/-! ## The engine configuration -/

theorem append_cons_unique {p : Call → Bool} :
    ∀ {a a' b b' : List Call} {x x' : Call}, a ++ x :: b = a' ++ x' :: b' →
      p x = true → (∀ e ∈ a', p e = false) → (∀ e ∈ b', p e = false) →
      a = a' ∧ x = x' ∧ b = b' := by
  intro a
  induction a with
  | nil =>
    intro a' b b' x x' h hx ha' hb'
    cases a' with
    | nil =>
      simp only [List.nil_append, List.cons.injEq] at h
      exact ⟨rfl, h.1, h.2⟩
    | cons y a'' =>
      simp only [List.nil_append, List.cons_append, List.cons.injEq] at h
      have := ha' y (List.mem_cons_self _ _)
      rw [← h.1, hx] at this
      exact Bool.noConfusion this
  | cons y a2 ih =>
    intro a' b b' x x' h hx ha' hb'
    cases a' with
    | nil =>
      simp only [List.nil_append, List.cons_append, List.cons.injEq] at h
      have := hb' x (by rw [← h.2]; simp)
      rw [hx] at this
      exact Bool.noConfusion this
    | cons y' a2' =>
      simp only [List.cons_append, List.cons.injEq] at h
      obtain ⟨h1, h2, h3⟩ := ih h.2 hx (fun e he => ha' e (List.mem_cons_of_mem _ he)) hb'
      exact ⟨by rw [h.1, h1], h2, h3⟩

theorem EngineConfig.replay_append (config : Handle) (c : EngineConfig) (a b : List Call) :
    EngineConfig.replay config c (a ++ b) =
      EngineConfig.replay config (EngineConfig.replay config c a) b := by
  simp [EngineConfig.replay, List.foldl_append]

theorem EngineConfig.apply_of_no_mutation (config : Handle) (c : EngineConfig) (e : Call)
    (he : e.mutatesEngineConfig = false) : EngineConfig.apply config c e = c := by
  cases e <;> first
    | rfl
    | (exact Bool.noConfusion he)

theorem EngineConfig.replay_of_no_mutation (config : Handle) :
    ∀ (l : List Call) (c : EngineConfig), (∀ e ∈ l, e.mutatesEngineConfig = false) →
      EngineConfig.replay config c l = c := by
  intro l
  induction l with
  | nil => intro c _; rfl
  | cons e l ih =>
    intro c h
    have he := h e (List.mem_cons_self _ _)
    have hstep := EngineConfig.apply_of_no_mutation config c e he
    show EngineConfig.replay config (EngineConfig.apply config c e) l = c
    rw [hstep]
    exact ih c (fun e' he' => h e' (List.mem_cons_of_mem _ he'))

/-- C2: in a run of `start` that calls `wrEngine_Create` (the calls before it are `pre`,
the calls after it are `post`), no call after `wrEngine_Create` changes a wrEngineConfig;
the calls before it that do are exactly the three of lines 51, 52 and 59, on the config
passed to `wrEngine_Create`; and whatever that config held when it was created, when
`wrEngine_Create` consumes it its stream flags are `wrStream_POSE_2D | wrStream_POSE_3D`,
its license string is the `licenseKey` argument, and its detection callback is
`Wrnch2::detectionCallback` with user data `&framesReceived`. -/
theorem start_config_set_before_create (w : World) (key : String) (g : Globals)
    (pre post : List Call) (config : Handle) (c : wrEngineCode) (eng : Handle)
    (h : startCalls w key g = pre ++ Call.wrEngine_Create config c eng :: post) :
    (∀ e ∈ post, e.mutatesEngineConfig = false) ∧
    pre.filter Call.mutatesEngineConfig =
      [Call.wrEngineConfig_SetIntProperty config wrEngineConfigPropertyInt.STREAM_FLAGS.val
         ((wrStreamFlag.POSE_2D.val ||| wrStreamFlag.POSE_3D.val : Nat) : Int)
         (w.setterCode Setter.wrEngineConfig_SetIntProperty
           wrEngineConfigPropertyInt.STREAM_FLAGS.val),
       Call.wrEngineConfig_SetStringProperty config
         wrEngineConfigPropertyString.LICENSE_STRING.val key
         (w.setterCode Setter.wrEngineConfig_SetStringProperty
           wrEngineConfigPropertyString.LICENSE_STRING.val),
       Call.wrEngineConfig_SetDetectionCallback config
         DetectionCallbackPtr.Wrnch2_detectionCallback UserDataPtr.addr_framesReceived] ∧
    (∀ c0 : EngineConfig, EngineConfig.replay config c0 pre =
      { c0 with
        streamFlags := ((wrStreamFlag.POSE_2D.val ||| wrStreamFlag.POSE_3D.val : Nat) : Int)
        licenseString := key
        detectionCallback := DetectionCallbackPtr.Wrnch2_detectionCallback
        userData := UserDataPtr.addr_framesReceived }) := by
  obtain ⟨m, skipped, -, -, hp, -, hres⟩ := startCalls_cases w key g
  have hsk : ∀ e ∈ skipped, e.isEngineCreate = false ∧ e.mutatesEngineConfig = false :=
    fun e he => ⟨(Call.isProbe_facts (hp e he)).1, (Call.isProbe_facts (hp e he)).2.2.2.2⟩
  have hmem : Call.wrEngine_Create config c eng ∈ startCalls w key g := by
    rw [h]; simp
  rcases hres with ⟨-, -, hc⟩ | ⟨-, hret, -, hc⟩
  · exfalso
    rw [hc] at hmem
    simp only [List.mem_append, List.mem_cons, List.mem_singleton, List.not_mem_nil,
      or_false, reduceCtorEq, false_or] at hmem
    have := (hsk _ hmem).1
    simp [Call.isEngineCreate] at this
  · obtain ⟨-, -, -, hev⟩ := startBody_ret_events w key _ _ m g hret
    rw [hev, h] at hc
    simp only [← List.append_assoc] at hc
    have hu := append_cons_unique (p := Call.isEngineCreate) hc rfl
      (by
        intro e he
        simp only [List.mem_append, List.mem_cons, List.mem_singleton, List.not_mem_nil,
          or_false] at he
        rcases he with (he | he) | he
        · rcases he with rfl | rfl | rfl | rfl <;> rfl
        · exact (hsk _ he).1
        · rcases he with rfl | rfl | rfl | rfl | rfl | rfl | rfl | rfl | rfl | rfl | rfl |
            rfl | rfl | rfl | rfl | rfl | rfl | rfl <;> rfl)
      (by
        intro e he
        split_ifs at he
        · simp only [List.mem_cons, List.mem_singleton, List.not_mem_nil, or_false] at he
          rcases he with rfl | rfl | rfl <;> rfl
        · simp only [List.mem_append, List.mem_cons, List.mem_singleton, List.not_mem_nil,
            or_false] at he
          rcases he with (rfl | rfl | rfl) | (rfl | rfl | rfl) <;> rfl
        · simp only [List.mem_append, List.mem_cons, List.mem_singleton, List.not_mem_nil,
            or_false] at he
          rcases he with rfl | rfl | rfl <;> rfl)
    obtain ⟨hpre, hx, hpost⟩ := hu
    simp only [Call.wrEngine_Create.injEq] at hx
    obtain ⟨rfl, rfl, rfl⟩ := hx
    have hskf : skipped.filter Call.mutatesEngineConfig = [] :=
      List.filter_eq_nil_iff.mpr (fun e he => by simp [(hsk e he).2])
    refine ⟨?_, ?_, ?_⟩
    · intro e he
      rw [hpost] at he
      split_ifs at he
      · simp only [List.mem_cons, List.mem_singleton, List.not_mem_nil, or_false] at he
        rcases he with rfl | rfl | rfl <;> rfl
      · simp only [List.mem_append, List.mem_cons, List.mem_singleton, List.not_mem_nil,
          or_false] at he
        rcases he with (rfl | rfl | rfl) | (rfl | rfl | rfl) <;> rfl
      · simp only [List.mem_append, List.mem_cons, List.mem_singleton, List.not_mem_nil,
          or_false] at he
        rcases he with rfl | rfl | rfl <;> rfl
    · rw [hpre, List.filter_append, List.filter_append, hskf]
      simp [Call.mutatesEngineConfig]
    · intro c0
      rw [hpre, EngineConfig.replay_append, EngineConfig.replay_append,
        EngineConfig.replay_of_no_mutation _ _ c0
          (by
            intro e he
            simp only [List.mem_cons, List.mem_singleton, List.not_mem_nil, or_false] at he
            rcases he with rfl | rfl | rfl | rfl <;> rfl),
        EngineConfig.replay_of_no_mutation _ skipped c0 (fun e he => (hsk e he).2)]
      simp [EngineConfig.replay, EngineConfig.apply, wrEngineConfigPropertyInt.val,
        wrEngineConfigPropertyString.val]

theorem start_config_set_before_create_witness :
    startCalls (sampleWorld wrEngineCode.OK wrEngineCode.OK) "KEY" Globals.initial =
        (startCalls (sampleWorld wrEngineCode.OK wrEngineCode.OK) "KEY" Globals.initial).take 28
          ++ Call.wrEngine_Create 300 wrEngineCode.OK 400 ::
          (startCalls (sampleWorld wrEngineCode.OK wrEngineCode.OK) "KEY" Globals.initial).drop
            29 ∧
      EngineConfig.replay 300
          ⟨2, 6888, 0, "wrnch-pose", "", DetectionCallbackPtr.null, UserDataPtr.null⟩
          ((startCalls (sampleWorld wrEngineCode.OK wrEngineCode.OK) "KEY"
            Globals.initial).take 28) =
        ⟨3, 6888, 0, "wrnch-pose", "KEY", DetectionCallbackPtr.Wrnch2_detectionCallback,
          UserDataPtr.addr_framesReceived⟩ :=
  ⟨by decide,
    (start_config_set_before_create (sampleWorld wrEngineCode.OK wrEngineCode.OK) "KEY"
      Globals.initial
      ((startCalls (sampleWorld wrEngineCode.OK wrEngineCode.OK) "KEY" Globals.initial).take 28)
      ((startCalls (sampleWorld wrEngineCode.OK wrEngineCode.OK) "KEY" Globals.initial).drop 29)
      300 wrEngineCode.OK 400 (by decide)).2.2 _⟩

/-! ## Stream flags -/

theorem testBit_one (i : Nat) : (1 : Nat).testBit i = decide (0 = i) := by
  have := @Nat.testBit_two_pow 0 i
  simpa using this

theorem testBit_two (i : Nat) : (2 : Nat).testBit i = decide (1 = i) := by
  have := @Nat.testBit_two_pow 1 i
  simpa using this

theorem and_one_eq_zero (m : Nat) : (m &&& 1 = 0) ↔ m.testBit 0 = false := by
  constructor
  · intro h0
    have := congrArg (fun x => Nat.testBit x 0) h0
    simpa [Nat.testBit_and, testBit_one] using this
  · intro h
    apply Nat.eq_of_testBit_eq
    intro i
    rw [Nat.testBit_and, testBit_one, Nat.zero_testBit]
    by_cases hi : 0 = i
    · subst hi; simp [h]
    · simp [hi]

theorem and_two_eq_zero (m : Nat) : (m &&& 2 = 0) ↔ m.testBit 1 = false := by
  constructor
  · intro h0
    have := congrArg (fun x => Nat.testBit x 1) h0
    simpa [Nat.testBit_and, testBit_two] using this
  · intro h
    apply Nat.eq_of_testBit_eq
    intro i
    rw [Nat.testBit_and, testBit_two, Nat.zero_testBit]
    by_cases hi : 1 = i
    · subst hi; simp [h]
    · simp [hi]

theorem or_one_and_two (m : Nat) : (m ||| 1) &&& 2 = m &&& 2 := by
  apply Nat.eq_of_testBit_eq
  intro i
  simp only [Nat.testBit_and, Nat.testBit_or, testBit_one, testBit_two]
  by_cases h0 : 0 = i <;> by_cases h1 : 1 = i <;> simp [h0, h1]
  omega

theorem or_two_and_one (m : Nat) : (m ||| 2) &&& 1 = m &&& 1 := by
  apply Nat.eq_of_testBit_eq
  intro i
  simp only [Nat.testBit_and, Nat.testBit_or, testBit_one, testBit_two]
  by_cases h0 : 0 = i <;> by_cases h1 : 1 = i <;> simp [h0, h1]
  omega

theorem xor_one_and_two (m : Nat) : (m ^^^ 1) &&& 2 = m &&& 2 := by
  apply Nat.eq_of_testBit_eq
  intro i
  simp only [Nat.testBit_and, Nat.testBit_xor, testBit_one, testBit_two]
  by_cases h0 : 0 = i <;> by_cases h1 : 1 = i <;> simp [h0, h1]
  omega

theorem xor_two_and_one (m : Nat) : (m ^^^ 2) &&& 1 = m &&& 1 := by
  apply Nat.eq_of_testBit_eq
  intro i
  simp only [Nat.testBit_and, Nat.testBit_xor, testBit_one, testBit_two]
  by_cases h0 : 0 = i <;> by_cases h1 : 1 = i <;> simp [h0, h1]
  omega

/-- The value `start` passes for `wrEngineConfigProperty_STREAM_FLAGS` (line 51). -/
theorem start_stream_flags_value (w : World) (key : String) (g : Globals) (config : Handle)
    (p : Nat) (v : Int) (r : wrEngineCode)
    (he : Call.wrEngineConfig_SetIntProperty config p v r ∈ startCalls w key g) :
    p = wrEngineConfigPropertyInt.STREAM_FLAGS.val ∧
      v = ((wrStreamFlag.POSE_2D.val ||| wrStreamFlag.POSE_3D.val : Nat) : Int) := by
  obtain ⟨m, skipped, -, -, hp, -, hres⟩ := startCalls_cases w key g
  have hsk : ∀ e ∈ skipped, e.setter? = none := fun e he =>
    (Call.isProbe_facts (hp e he)).2.2.2.1
  rcases hres with ⟨-, -, hc⟩ | ⟨-, hret, -, hc⟩
  · exfalso
    rw [hc] at he
    simp only [List.mem_append, List.mem_cons, List.mem_singleton, List.not_mem_nil,
      or_false, reduceCtorEq, false_or] at he
    have := hsk _ he
    simp [Call.setter?] at this
  · obtain ⟨-, -, -, hev⟩ := startBody_ret_events w key _ _ m g hret
    rw [hev] at hc
    rw [hc] at he
    simp only [List.mem_append, List.mem_cons, List.mem_singleton, List.not_mem_nil,
      or_false, reduceCtorEq, false_or, or_false, Call.wrEngineConfig_SetIntProperty.injEq]
      at he
    rcases he with he | he | he
    · have := hsk _ he
      simp [Call.setter?] at this
    · exact ⟨he.2.1, he.2.2.1⟩
    · split_ifs at he <;> simp at he

/-- C6: `wrStream_POSE_2D` is 1 and `wrStream_POSE_3D` is 2: two different nonzero
values, each a single bit, with no bit in common.  For every bitmask `m`, whether a flag
is present (`m & flag` nonzero) is the value of the bit of that flag alone, setting or
toggling one flag leaves the test of the other as it was, and every combination of the two
flags being present or absent occurs.  The value `start` passes for the stream
flags is `wrStream_POSE_2D | wrStream_POSE_3D`, which is 3, has both flags, and has no
other bit. -/
theorem wrStreamFlag_bits_independent :
    (wrStreamFlag.POSE_2D.val = 2 ^ 0 ∧ wrStreamFlag.POSE_3D.val = 2 ^ 1 ∧
      wrStreamFlag.POSE_2D.val ≠ wrStreamFlag.POSE_3D.val ∧
      wrStreamFlag.POSE_2D.val ≠ 0 ∧ wrStreamFlag.POSE_3D.val ≠ 0 ∧
      wrStreamFlag.POSE_2D.val &&& wrStreamFlag.POSE_3D.val = 0) ∧
    (∀ m : Nat,
      (m &&& wrStreamFlag.POSE_2D.val ≠ 0 ↔ m.testBit 0 = true) ∧
      (m &&& wrStreamFlag.POSE_3D.val ≠ 0 ↔ m.testBit 1 = true) ∧
      (m ||| wrStreamFlag.POSE_2D.val) &&& wrStreamFlag.POSE_3D.val =
        m &&& wrStreamFlag.POSE_3D.val ∧
      (m ||| wrStreamFlag.POSE_3D.val) &&& wrStreamFlag.POSE_2D.val =
        m &&& wrStreamFlag.POSE_2D.val ∧
      (m ^^^ wrStreamFlag.POSE_2D.val) &&& wrStreamFlag.POSE_3D.val =
        m &&& wrStreamFlag.POSE_3D.val ∧
      (m ^^^ wrStreamFlag.POSE_3D.val) &&& wrStreamFlag.POSE_2D.val =
        m &&& wrStreamFlag.POSE_2D.val) ∧
    (∀ a b : Bool, ∃ m : Nat,
      (m &&& wrStreamFlag.POSE_2D.val ≠ 0 ↔ a = true) ∧
      (m &&& wrStreamFlag.POSE_3D.val ≠ 0 ↔ b = true)) ∧
    (wrStreamFlag.POSE_2D.val ||| wrStreamFlag.POSE_3D.val = 3 ∧
      (wrStreamFlag.POSE_2D.val ||| wrStreamFlag.POSE_3D.val) &&&
        wrStreamFlag.POSE_2D.val ≠ 0 ∧
      (wrStreamFlag.POSE_2D.val ||| wrStreamFlag.POSE_3D.val) &&&
        wrStreamFlag.POSE_3D.val ≠ 0 ∧
      (∀ k : Nat, (wrStreamFlag.POSE_2D.val ||| wrStreamFlag.POSE_3D.val).testBit k = true →
        k = 0 ∨ k = 1)) ∧
    (∀ (w : World) (key : String) (g : Globals) (config : Handle) (p : Nat) (v : Int)
      (r : wrEngineCode),
      Call.wrEngineConfig_SetIntProperty config p v r ∈ startCalls w key g →
        p = wrEngineConfigPropertyInt.STREAM_FLAGS.val ∧ v = 3) := by
  refine ⟨by decide, ?_, ?_, ⟨by decide, by decide, by decide, ?_⟩, ?_⟩
  · intro m
    simp only [wrStreamFlag.val]
    refine ⟨?_, ?_, or_one_and_two m, or_two_and_one m, xor_one_and_two m,
      xor_two_and_one m⟩
    · rw [Ne, and_one_eq_zero]; simp
    · rw [Ne, and_two_eq_zero]; simp
  · intro a b
    cases a <;> cases b
    · exact ⟨0, by decide⟩
    · exact ⟨2, by decide⟩
    · exact ⟨1, by decide⟩
    · exact ⟨3, by decide⟩
  · intro k hk
    have h3 : wrStreamFlag.POSE_2D.val ||| wrStreamFlag.POSE_3D.val = 1 ||| 2 := rfl
    rw [h3, Nat.testBit_or, testBit_one, testBit_two] at hk
    simp only [Bool.or_eq_true, decide_eq_true_eq] at hk
    omega
  · intro w key g config p v r he
    obtain ⟨hp, hv⟩ := start_stream_flags_value w key g config p v r he
    exact ⟨hp, by rw [hv]; rfl⟩

theorem wrStreamFlag_bits_independent_witness :
    Call.wrEngineConfig_SetIntProperty 300 0 3 wrEngineCode.OK ∈
        startCalls (sampleWorld wrEngineCode.OK wrEngineCode.OK) "KEY" Globals.initial ∧
      (0 : Nat) = wrEngineConfigPropertyInt.STREAM_FLAGS.val ∧ (3 : Int) = 3 :=
  ⟨by decide,
    wrStreamFlag_bits_independent.2.2.2.2 (sampleWorld wrEngineCode.OK wrEngineCode.OK) "KEY"
      Globals.initial 300 0 3 wrEngineCode.OK (by decide)⟩

/-! ## T-pose calibration codes -/

/-- C7: the codes reported to a calibration callback are the six enumerators
`wrEngineCode_TPOSE_CALIBRATION_*`, one for each status of the list in the spec
(progressing-ok, no-person-detected, person-moving, person-not-facing-camera,
joints-missing, done) and no other; the terminal code
`wrEngineCode_TPOSE_CALIBRATION_DONE` has a value different from that of each of the other
five and from that of `wrEngineCode_OK`. -/
theorem calibration_codes_six :
    Function.Injective CalibrationStatus.code ∧
    (∀ c : wrEngineCode, c.isTPoseCalibration = true ↔ ∃ s : CalibrationStatus, s.code = c) ∧
    (wrEngineCode.enumerators.filter wrEngineCode.isTPoseCalibration).length = 6 ∧
    wrEngineCode.enumerators.filter wrEngineCode.isTPoseCalibration =
      [CalibrationStatus.done.code, CalibrationStatus.joints_missing.code,
       CalibrationStatus.no_person_detected.code, CalibrationStatus.person_moving.code,
       CalibrationStatus.person_not_facing_camera.code,
       CalibrationStatus.progressing_ok.code] ∧
    CalibrationStatus.done.code = wrEngineCode.TPOSE_CALIBRATION_DONE ∧
    (∀ s : CalibrationStatus, s ≠ CalibrationStatus.done →
      s.code.val ≠ wrEngineCode.TPOSE_CALIBRATION_DONE.val) ∧
    (∀ s : CalibrationStatus, s.code.val ≠ wrEngineCode.OK.val) ∧
    wrEngineCode.TPOSE_CALIBRATION_DONE.val ≠ wrEngineCode.OK.val := by
  refine ⟨?_, ?_, by decide, by decide, rfl, ?_, ?_, by decide⟩
  · intro a b h
    cases a <;> cases b <;> first | rfl | (exact absurd h (by decide))
  · intro c
    constructor
    · intro h
      cases c <;> first
        | (exact Bool.noConfusion h)
        | exact ⟨CalibrationStatus.done, rfl⟩
        | exact ⟨CalibrationStatus.joints_missing, rfl⟩
        | exact ⟨CalibrationStatus.no_person_detected, rfl⟩
        | exact ⟨CalibrationStatus.person_moving, rfl⟩
        | exact ⟨CalibrationStatus.person_not_facing_camera, rfl⟩
        | exact ⟨CalibrationStatus.progressing_ok, rfl⟩
    · rintro ⟨s, rfl⟩
      cases s <;> rfl
  · intro s hs
    cases s <;> first | (exact absurd rfl hs) | decide
  · intro s
    cases s <;> decide

theorem calibration_codes_six_witness :
    CalibrationStatus.person_moving ≠ CalibrationStatus.done ∧
      CalibrationStatus.person_moving.code.val ≠ wrEngineCode.TPOSE_CALIBRATION_DONE.val :=
  ⟨by decide, calibration_codes_six.2.2.2.2.2.1 CalibrationStatus.person_moving (by decide)⟩

/-! ## The error query -/

theorem getElem?_write_beyond (text out : List Byte) (i : Nat) (h : text.length + 1 ≤ i) :
    (text ++ [0] ++ out.drop (text.length + 1))[i]? = out[i]? := by
  rw [List.getElem?_append_right (by simp; omega)]
  simp only [List.length_append, List.length_singleton, List.getElem?_drop]
  congr 1
  omega

theorem drop_write (text out : List Byte) :
    (text ++ [0] ++ out.drop (text.length + 1)).drop (text.length + 1) =
      out.drop (text.length + 1) := by
  have : (text ++ [0]).length = text.length + 1 := by simp
  rw [← this, List.drop_left]

/-- C8: `wrEngine_GetError` returns 1 if the engine holds an error and 0 if it does not.
When it returns 1, what it writes is the start of the message, at most
`wrEngine_MAX_ERR_LEN - 1 = 255` bytes, followed by one null byte: at most 256 bytes, and
every byte of the buffer from index 256 on is as before.  When it returns 0 the buffer is
unchanged.  The engine is unchanged by the query, and a second query gives the same
result. -/
theorem wrEngine_GetError_contract (wrengine : Engine) (outError : List Byte) :
    ((wrEngine_GetError wrengine outError).1 = 1 ↔ wrengine.error ≠ none) ∧
    ((wrEngine_GetError wrengine outError).1 = 0 ↔ wrengine.error = none) ∧
    wrEngine_MAX_ERR_LEN - 1 = 255 ∧
    ((wrEngine_GetError wrengine outError).1 = 1 →
      ∃ message text, wrengine.error = some message ∧
        text = message.take (wrEngine_MAX_ERR_LEN - 1) ∧
        text.length ≤ wrEngine_MAX_ERR_LEN - 1 ∧
        (wrEngine_GetError wrengine outError).2.1 =
          text ++ [0] ++ outError.drop (text.length + 1) ∧
        (text ++ [0]).length ≤ wrEngine_MAX_ERR_LEN ∧
        (∀ i, wrEngine_MAX_ERR_LEN ≤ i →
          (wrEngine_GetError wrengine outError).2.1[i]? = outError[i]?) ∧
        (wrEngine_MAX_ERR_LEN ≤ outError.length →
          (wrEngine_GetError wrengine outError).2.1.length = outError.length)) ∧
    ((wrEngine_GetError wrengine outError).1 = 0 →
      (wrEngine_GetError wrengine outError).2.1 = outError) ∧
    (wrEngine_GetError wrengine outError).2.2 = wrengine ∧
    wrEngine_GetError (wrEngine_GetError wrengine outError).2.2
      (wrEngine_GetError wrengine outError).2.1 = wrEngine_GetError wrengine outError := by
  rcases wrengine with ⟨error, metadata, sources⟩
  cases error with
  | none => simp [wrEngine_GetError, wrEngine_MAX_ERR_LEN]
  | some message =>
    have hlen : (message.take (wrEngine_MAX_ERR_LEN - 1)).length ≤ 255 := by
      rw [List.length_take]
      simp only [wrEngine_MAX_ERR_LEN]
      omega
    refine ⟨by simp [wrEngine_GetError], by simp [wrEngine_GetError], rfl, ?_,
      by simp [wrEngine_GetError], rfl, ?_⟩
    · intro _
      refine ⟨message, message.take (wrEngine_MAX_ERR_LEN - 1), rfl, rfl, hlen, rfl, ?_, ?_,
        ?_⟩
      · have h256 : wrEngine_MAX_ERR_LEN = 256 := rfl
        simp only [List.length_append, List.length_singleton]
        omega
      · intro i hi
        simp only [wrEngine_MAX_ERR_LEN] at hi
        exact getElem?_write_beyond _ _ i (by omega)
      · intro hbuf
        simp only [wrEngine_MAX_ERR_LEN] at hbuf
        simp only [wrEngine_GetError, List.length_append,
          List.length_singleton, List.length_drop]
        omega
    · simp only [wrEngine_GetError, wrEngine_MAX_ERR_LEN]
      rw [drop_write]

theorem wrEngine_GetError_contract_witness :
    (wrEngine_GetError ⟨some [66, 65, 68], [], []⟩ (List.replicate 300 7)).1 = 1 ∧
      (wrEngine_GetError ⟨some [66, 65, 68], [], []⟩ (List.replicate 300 7)).2.1.take 5 =
        [66, 65, 68, 0, 7] ∧
      (wrEngine_GetError ⟨none, [], []⟩ [1, 2, 3]).2.1 = [1, 2, 3] :=
  ⟨by decide, by decide,
    (wrEngine_GetError_contract ⟨none, [], []⟩ [1, 2, 3]).2.2.2.2.1 (by decide)⟩

/-! ## The metadata query -/

/-- C9: for every engine and every caller buffer, if `outDataLen` is at least
`wrEngine_GetMetadataLen(engine)` then `wrEngine_GetMetadata` returns `outData` and the
buffer then starts with the serialized metadata, the bytes after it being as before;
otherwise it returns `NULL` and the buffer is unchanged. -/
theorem wrEngine_GetMetadata_contract (wrengine : Engine) (outData : Handle)
    (buffer : List Byte) (outDataLen : Nat) :
    (outDataLen ≥ wrEngine_GetMetadataLen wrengine →
      (wrEngine_GetMetadata wrengine outData buffer outDataLen).1 = outData ∧
      (wrEngine_GetMetadata wrengine outData buffer outDataLen).2.take
        (wrEngine_GetMetadataLen wrengine) = wrengine.metadata ∧
      (wrEngine_GetMetadata wrengine outData buffer outDataLen).2.drop
        (wrEngine_GetMetadataLen wrengine) =
        buffer.drop (wrEngine_GetMetadataLen wrengine) ∧
      (wrEngine_GetMetadataLen wrengine ≤ buffer.length →
        (wrEngine_GetMetadata wrengine outData buffer outDataLen).2.length =
          buffer.length)) ∧
    (outDataLen < wrEngine_GetMetadataLen wrengine →
      (wrEngine_GetMetadata wrengine outData buffer outDataLen).1 = NULL ∧
      (wrEngine_GetMetadata wrengine outData buffer outDataLen).2 = buffer) := by
  constructor
  · intro h
    have h' : outDataLen ≥ wrengine.metadata.length := h
    simp only [wrEngine_GetMetadata, wrEngine_GetMetadataLen, h', if_true]
    refine ⟨trivial, ?_, ?_, ?_⟩
    · simp
    · simp
    · intro hb
      simp only [List.length_append, List.length_drop]
      omega
  · intro h
    have h' : ¬ outDataLen ≥ wrengine.metadata.length := by
      simp only [wrEngine_GetMetadataLen] at h
      omega
    simp only [wrEngine_GetMetadata, wrEngine_GetMetadataLen, h', if_false]
    exact ⟨trivial, trivial⟩

theorem wrEngine_GetMetadata_contract_witness :
    (3 ≥ wrEngine_GetMetadataLen ⟨none, [10, 20, 30], []⟩ ∧
      (wrEngine_GetMetadata ⟨none, [10, 20, 30], []⟩ 500 [1, 2, 3, 4] 3).1 = 500) ∧
    (2 < wrEngine_GetMetadataLen ⟨none, [10, 20, 30], []⟩ ∧
      (wrEngine_GetMetadata ⟨none, [10, 20, 30], []⟩ 500 [1, 2, 3, 4] 2).2 = [1, 2, 3, 4]) :=
  ⟨⟨by decide,
    ((wrEngine_GetMetadata_contract ⟨none, [10, 20, 30], []⟩ 500 [1, 2, 3, 4] 3).1
      (by decide)).1⟩,
   ⟨by decide,
    ((wrEngine_GetMetadata_contract ⟨none, [10, 20, 30], []⟩ 500 [1, 2, 3, 4] 2).2
      (by decide)).2⟩⟩

/-! ## Capture sources -/

theorem EngineOp.apply_sources_length (e : Engine) (op : EngineOp)
    (h : e.sources.length ≤ 1) : (EngineOp.apply e op).1.sources.length ≤ 1 := by
  cases op with
  | openCamera config outcome failure =>
    simp only [EngineOp.apply, wrEngine_OpenCamera, openSource]
    split_ifs <;> simp
  | openVideoFile videoPath outcome failure =>
    simp only [EngineOp.apply, wrEngine_OpenVideoFile, openSource]
    split_ifs <;> simp
  | closeCamera => simp [EngineOp.apply, wrEngine_CloseCamera]
  | videoFinished =>
    simp only [EngineOp.apply, Wrnch2Test.videoFinished]
    exact le_trans (List.length_filter_le _ _) h

theorem Engine.run_sources_length (ops : List EngineOp) :
    ∀ e : Engine, e.sources.length ≤ 1 → (e.run ops).sources.length ≤ 1 := by
  induction ops with
  | nil => intro e h; exact h
  | cons op ops ih =>
    intro e h
    exact ih _ (EngineOp.apply_sources_length e op h)

theorem sources_nil_or_singleton (e : Engine) (h : e.sources.length ≤ 1) :
    e.sources = [] ∨ ∃ s, e.sources = [s] := by
  rcases hs : e.sources with _ | ⟨s, _ | ⟨t, rest⟩⟩
  · exact Or.inl rfl
  · exact Or.inr ⟨s, rfl⟩
  · rw [hs] at h
    simp at h

theorem EngineOp.apply_steps (e : Engine) (op : EngineOp) (h : e.sources.length ≤ 1)
    (k : Nat) :
    (sourcesAfter e.sources ((EngineOp.apply e op).2.take k)).length ≤ 1 ∧
      sourcesAfter e.sources (EngineOp.apply e op).2 = (EngineOp.apply e op).1.sources := by
  rcases sources_nil_or_singleton e h with hs | ⟨s, hs⟩
  · cases op with
    | openCamera config outcome failure =>
      simp only [EngineOp.apply, wrEngine_OpenCamera, openSource, hs]
      split_ifs <;> rcases k with _ | _ | k <;>
        simp [sourcesAfter, SourceStep.apply]
    | openVideoFile videoPath outcome failure =>
      simp only [EngineOp.apply, wrEngine_OpenVideoFile, openSource, hs]
      split_ifs <;> rcases k with _ | _ | k <;>
        simp [sourcesAfter, SourceStep.apply]
    | closeCamera => simp [EngineOp.apply, wrEngine_CloseCamera, hs, sourcesAfter]
    | videoFinished => simp [EngineOp.apply, Wrnch2Test.videoFinished, hs, sourcesAfter]
  · cases op with
    | openCamera config outcome failure =>
      simp only [EngineOp.apply, wrEngine_OpenCamera, openSource, hs]
      split_ifs <;> rcases k with _ | _ | _ | k <;>
        simp [sourcesAfter, SourceStep.apply]
    | openVideoFile videoPath outcome failure =>
      simp only [EngineOp.apply, wrEngine_OpenVideoFile, openSource, hs]
      split_ifs <;> rcases k with _ | _ | _ | k <;>
        simp [sourcesAfter, SourceStep.apply]
    | closeCamera =>
      rcases k with _ | _ | k <;>
        simp [EngineOp.apply, wrEngine_CloseCamera, hs, sourcesAfter, SourceStep.apply]
    | videoFinished =>
      cases s <;> rcases k with _ | _ | k <;>
        simp [EngineOp.apply, Wrnch2Test.videoFinished, hs, sourcesAfter, SourceStep.apply,
          CaptureSource.isVideoFile]

/-- C10: in every state an engine reaches from its creation by `wrEngine_OpenCamera`,
`wrEngine_OpenVideoFile`, `wrEngine_CloseCamera` and the end of a video, and at every
moment inside each of these operations, at most one capture source is open.
`wrEngine_OpenCamera` and `wrEngine_OpenVideoFile` issued while a source is open first
close that source and only then open the new one (or fail to); `wrEngine_CloseCamera`
is defined in every state, leaves no source open, and a second call changes nothing. -/
theorem capture_source_at_most_one :
    (∀ (metadata : List Byte) (ops : List EngineOp),
      ((Engine.created metadata).run ops).sources.length ≤ 1) ∧
    (∀ (metadata : List Byte) (ops : List EngineOp) (op : EngineOp) (k : Nat),
      (sourcesAfter ((Engine.created metadata).run ops).sources
        ((EngineOp.apply ((Engine.created metadata).run ops) op).2.take k)).length ≤ 1 ∧
      sourcesAfter ((Engine.created metadata).run ops).sources
        (EngineOp.apply ((Engine.created metadata).run ops) op).2 =
        (EngineOp.apply ((Engine.created metadata).run ops) op).1.sources) ∧
    (∀ (e : Engine) (s : CaptureSource) (config : Handle) (outcome : wrEngineCode)
      (failure : List Byte), e.sources = [s] →
      ((wrEngine_OpenCamera e config outcome failure).2.2 =
          [SourceStep.closed s, SourceStep.opened (CaptureSource.camera config)] ∧
        (wrEngine_OpenCamera e config outcome failure).2.1.sources =
          [CaptureSource.camera config] ∧ outcome = wrEngineCode.OK) ∨
      ((wrEngine_OpenCamera e config outcome failure).2.2 =
          [SourceStep.closed s, SourceStep.failed (CaptureSource.camera config) outcome] ∧
        (wrEngine_OpenCamera e config outcome failure).2.1.sources = [] ∧
        outcome ≠ wrEngineCode.OK)) ∧
    (∀ (e : Engine) (s : CaptureSource) (videoPath : String) (outcome : wrEngineCode)
      (failure : List Byte), e.sources = [s] →
      ((wrEngine_OpenVideoFile e videoPath outcome failure).2.2 =
          [SourceStep.closed s, SourceStep.opened (CaptureSource.videoFile videoPath)] ∧
        (wrEngine_OpenVideoFile e videoPath outcome failure).2.1.sources =
          [CaptureSource.videoFile videoPath] ∧ outcome = wrEngineCode.OK) ∨
      ((wrEngine_OpenVideoFile e videoPath outcome failure).2.2 =
          [SourceStep.closed s,
            SourceStep.failed (CaptureSource.videoFile videoPath) outcome] ∧
        (wrEngine_OpenVideoFile e videoPath outcome failure).2.1.sources = [] ∧
        outcome ≠ wrEngineCode.OK)) ∧
    (∀ e : Engine, (wrEngine_CloseCamera e).1.sources = [] ∧
      (wrEngine_CloseCamera e).1.error = e.error ∧
      (wrEngine_CloseCamera e).2 = e.sources.map SourceStep.closed ∧
      wrEngine_CloseCamera (wrEngine_CloseCamera e).1 = ((wrEngine_CloseCamera e).1, [])) := by
  have hreach : ∀ (metadata : List Byte) (ops : List EngineOp),
      ((Engine.created metadata).run ops).sources.length ≤ 1 := fun metadata ops =>
    Engine.run_sources_length ops _ (by simp [Engine.created])
  refine ⟨hreach, fun metadata ops op k => EngineOp.apply_steps _ op (hreach metadata ops) k,
    ?_, ?_, fun e => ⟨rfl, rfl, rfl, rfl⟩⟩
  · intro e s config outcome failure hs
    by_cases hok : outcome = wrEngineCode.OK
    · left
      simp [wrEngine_OpenCamera, openSource, hs, hok]
    · right
      have hv : outcome.val ≠ wrEngineCode.OK.val := (wrEngineCode.val_ne_OK_iff outcome).mpr hok
      simp [wrEngine_OpenCamera, openSource, hv, hs, hok]
  · intro e s videoPath outcome failure hs
    by_cases hok : outcome = wrEngineCode.OK
    · left
      simp [wrEngine_OpenVideoFile, openSource, hs, hok]
    · right
      have hv : outcome.val ≠ wrEngineCode.OK.val := (wrEngineCode.val_ne_OK_iff outcome).mpr hok
      simp [wrEngine_OpenVideoFile, openSource, hv, hs, hok]

theorem capture_source_at_most_one_witness :
    (⟨none, [], [CaptureSource.videoFile "a.mp4"]⟩ : Engine).sources =
        [CaptureSource.videoFile "a.mp4"] ∧
      (wrEngine_OpenCamera ⟨none, [], [CaptureSource.videoFile "a.mp4"]⟩ 100
          wrEngineCode.OK []).2.2 =
        [SourceStep.closed (CaptureSource.videoFile "a.mp4"),
          SourceStep.opened (CaptureSource.camera 100)] :=
  ⟨rfl,
    ((capture_source_at_most_one.2.2.1 ⟨none, [], [CaptureSource.videoFile "a.mp4"]⟩
      (CaptureSource.videoFile "a.mp4") 100 wrEngineCode.OK [] rfl).resolve_right
        (fun h => h.2.2 rfl)).1⟩

/-! ## Selection of the camera -/

/-- A pass through the loop body returns exactly when the device is read with code OK
and position FRONT; otherwise it goes on with the next index. -/
theorem startBody_flow (w : World) (key : String) (cc di : Handle) (i : Nat) (g : Globals) :
    (startBody w key cc di i g).1 = if w.isFront i = true then Flow.ret else Flow.next := by
  have hv := wrEngineCode.val_ne_OK_iff (w.getCameraDeviceInfo i).code
  have hpos : (w.getCameraDeviceInfo i).position.val = wrCameraDevicePosition.FRONT.val ↔
      (w.getCameraDeviceInfo i).position = wrCameraDevicePosition.FRONT :=
    ⟨fun h => wrCameraDevicePosition.position_val_injective h, fun h => by rw [h]⟩
  unfold startBody World.isFront
  simp only []
  split_ifs <;> simp_all

theorem startBody_flow_next (w : World) (key : String) (cc di : Handle) (i : Nat)
    (g : Globals) :
    (startBody w key cc di i g).1 = Flow.next ↔ w.isFront i = false := by
  rw [startBody_flow]
  cases w.isFront i <;> simp

theorem startBody_flow_ret (w : World) (key : String) (cc di : Handle) (i : Nat)
    (g : Globals) :
    (startBody w key cc di i g).1 = Flow.ret ↔ w.isFront i = true := by
  rw [startBody_flow]
  cases w.isFront i <;> simp

theorem start_of_loop {w : World} {key : String} {g g' : Globals} {rest : List Call}
    (h : startLoop w key w.cameraConfigCreate w.cameraDeviceInfoCreate
      (uint32 w.numCameraDevices) (uint32 w.numCameraDevices + 1) 0 g = some (g', rest)) :
    start w key g = some (g',
      [Call.cout "Wrnch2::start method called",
       Call.wrCameraConfig_Create w.cameraConfigCreate,
       Call.wrEngine_GetNumCameraDevices (uint32 w.numCameraDevices),
       Call.wrCameraDeviceInfo_Create w.cameraDeviceInfoCreate] ++ rest) := by
  simp only [start, startFuel, h]

/-- The calls of a run of `start`, pass by pass: the four calls of lines 16 to 20, the
passes at the indices `0, ..., m-1`, none of them at a front device, and then either the
loop ends (`m` is the camera count) or the pass at the front device `m`, which returns. -/
theorem startCalls_passes (w : World) (key : String) (g : Globals) :
    ∃ m : Nat, m ≤ uint32 w.numCameraDevices ∧
      (∀ j, j < m → w.isFront j = false) ∧
      ((m = uint32 w.numCameraDevices ∧
        start w key g = some (g, startCalls w key g) ∧
        startCalls w key g =
          [Call.cout "Wrnch2::start method called",
           Call.wrCameraConfig_Create w.cameraConfigCreate,
           Call.wrEngine_GetNumCameraDevices (uint32 w.numCameraDevices),
           Call.wrCameraDeviceInfo_Create w.cameraDeviceInfoCreate] ++
          (List.range' 0 m).flatMap fun j =>
            (startBody w key w.cameraConfigCreate w.cameraDeviceInfoCreate j g).2.2) ∨
       (m < uint32 w.numCameraDevices ∧ w.isFront m = true ∧
        start w key g = some ({ g with engine := w.engineCreateOut }, startCalls w key g) ∧
        startCalls w key g =
          [Call.cout "Wrnch2::start method called",
           Call.wrCameraConfig_Create w.cameraConfigCreate,
           Call.wrEngine_GetNumCameraDevices (uint32 w.numCameraDevices),
           Call.wrCameraDeviceInfo_Create w.cameraDeviceInfoCreate] ++
          (((List.range' 0 m).flatMap fun j =>
              (startBody w key w.cameraConfigCreate w.cameraDeviceInfoCreate j g).2.2) ++
            (startBody w key w.cameraConfigCreate w.cameraDeviceInfoCreate m g).2.2))) := by
  obtain ⟨m, hm, hnext, hres⟩ :=
    startLoop_closed w key w.cameraConfigCreate w.cameraDeviceInfoCreate
      (uint32 w.numCameraDevices) (uint32_lt _) g (uint32 w.numCameraDevices + 1) 0
      (Nat.zero_le _) (by omega)
  refine ⟨m, by omega, fun j hj =>
    (startBody_flow_next w key _ _ j g).mp (hnext j (Nat.zero_le _) (by omega)), ?_⟩
  rcases hres with ⟨h1, h2⟩ | ⟨h1, h2, h3⟩
  · left
    have hs := start_of_loop h2
    have hc := startCalls_of_eq hs
    exact ⟨by omega, by rw [hc]; exact hs, hc⟩
  · right
    rw [Nat.zero_add] at h2 h3
    have hs := start_of_loop h3
    have hc := startCalls_of_eq hs
    have hg := (startBody_ret_events w key _ _ m g h2).2.2.1
    refine ⟨by omega, (startBody_flow_ret w key _ _ m g).mp h2, ?_, hc⟩
    rw [hc, hs, hg]

/-- The calls of a run in which no device below the camera count is a front device. -/
theorem startCalls_none (w : World) (key : String) (g : Globals)
    (hno : ∀ i, i < uint32 w.numCameraDevices → w.isFront i = false) :
    ∃ skipped : List Call, queryIndices skipped = List.range (uint32 w.numCameraDevices) ∧
      (∀ e ∈ skipped, e.isProbe = true) ∧
      start w key g = some (g, startCalls w key g) ∧
      startCalls w key g =
        [Call.cout "Wrnch2::start method called",
         Call.wrCameraConfig_Create w.cameraConfigCreate,
         Call.wrEngine_GetNumCameraDevices (uint32 w.numCameraDevices),
         Call.wrCameraDeviceInfo_Create w.cameraDeviceInfoCreate] ++ skipped := by
  obtain ⟨m, skipped, -, hq, hp, -, hres⟩ := startCalls_cases w key g
  rcases hres with ⟨h1, hs, hc⟩ | ⟨h1, hret, -, -⟩
  · exact ⟨skipped, by rw [hq, h1], hp, hs, hc⟩
  · have := (startBody_flow_ret w key _ _ m g).mp hret
    rw [hno m h1] at this
    exact Bool.noConfusion this

/-- The calls of a run in which `i` is the least front device below the camera count. -/
theorem startCalls_selected (w : World) (key : String) (g : Globals) (i : Nat)
    (hi : i < uint32 w.numCameraDevices) (hfront : w.isFront i = true)
    (hleast : ∀ j, j < i → w.isFront j = false) :
    ∃ skipped : List Call, queryIndices skipped = List.range i ∧
      (∀ e ∈ skipped, e.isProbe = true) ∧
      (startBody w key w.cameraConfigCreate w.cameraDeviceInfoCreate i g).1 = Flow.ret ∧
      start w key g = some ({ g with engine := w.engineCreateOut }, startCalls w key g) ∧
      startCalls w key g =
        [Call.cout "Wrnch2::start method called",
         Call.wrCameraConfig_Create w.cameraConfigCreate,
         Call.wrEngine_GetNumCameraDevices (uint32 w.numCameraDevices),
         Call.wrCameraDeviceInfo_Create w.cameraDeviceInfoCreate] ++
        (skipped ++
          (startBody w key w.cameraConfigCreate w.cameraDeviceInfoCreate i g).2.2) := by
  obtain ⟨m, skipped, -, hq, hp, hn, hres⟩ := startCalls_cases w key g
  have hnf : ∀ j, j < m → w.isFront j = false := fun j hj =>
    (startBody_flow_next w key _ _ j g).mp (hn j hj)
  have him : ¬ i < m := fun h => by
    have := hnf i h
    rw [hfront] at this
    exact Bool.noConfusion this
  rcases hres with ⟨h1, -, -⟩ | ⟨h1, hret, hs, hc⟩
  · omega
  · have hmf := (startBody_flow_ret w key _ _ m g).mp hret
    have hmi : ¬ m < i := fun h => by
      have := hleast m h
      rw [hmf] at this
      exact Bool.noConfusion this
    have : m = i := by omega
    subst this
    exact ⟨skipped, hq, hp, hret, hs, hc⟩

/-- Whether there is a front device below the camera count decides which of
`startCalls_none` and `startCalls_selected` applies. -/
theorem front_least_or_none (w : World) :
    (∀ i, i < uint32 w.numCameraDevices → w.isFront i = false) ∨
      ∃ i, i < uint32 w.numCameraDevices ∧ w.isFront i = true ∧
        ∀ j, j < i → w.isFront j = false := by
  by_cases h : ∃ i, i < uint32 w.numCameraDevices ∧ w.isFront i = true
  · right
    refine ⟨Nat.find h, (Nat.find_spec h).1, (Nat.find_spec h).2, fun j hj => ?_⟩
    have := Nat.find_min h hj
    have hjn : j < uint32 w.numCameraDevices := lt_trans hj (Nat.find_spec h).1
    cases hf : w.isFront j
    · rfl
    · exact absurd ⟨hjn, hf⟩ this
  · left
    intro i hi
    cases hf : w.isFront i
    · rfl
    · exact absurd ⟨i, hi, hf⟩ h

theorem readsFollowOk_append :
    ∀ (a b : List Call) (last : Option wrEngineCode), readsFollowOk last a = true →
      (∀ last', readsFollowOk last' b = true) → readsFollowOk last (a ++ b) = true := by
  intro a
  induction a with
  | nil => intro b last _ hb; exact hb last
  | cons c a ih =>
    intro b last ha hb
    cases c <;> simp only [readsFollowOk, List.cons_append, Bool.and_eq_true] at ha ⊢ <;>
      first
        | exact ih b _ ha hb
        | exact ⟨ha.1, ih b _ ha.2 hb⟩

theorem readsFollowOk_flatMap (f : Nat → List Call)
    (hf : ∀ j last, readsFollowOk last (f j) = true) :
    ∀ (l : List Nat) (last : Option wrEngineCode),
      readsFollowOk last (l.flatMap f) = true := by
  intro l
  induction l with
  | nil => intro last; rfl
  | cons j l ih =>
    intro last
    rw [List.flatMap_cons]
    exact readsFollowOk_append _ _ last (hf j last) ih

/-- In every pass through the loop body the device info is read only after the query of
this pass has returned OK. -/
theorem startBody_readsFollowOk (w : World) (key : String) (cc di : Handle) (i : Nat)
    (g : Globals) (last : Option wrEngineCode) :
    readsFollowOk last (startBody w key cc di i g).2.2 = true := by
  have hv := wrEngineCode.val_ne_OK_iff (w.getCameraDeviceInfo i).code
  unfold startBody
  simp only []
  split_ifs <;> simp_all [readsFollowOk, Call.readsDeviceInfo]

theorem World.isFront_iff (w : World) (i : Nat) :
    w.isFront i = true ↔ ((w.getCameraDeviceInfo i).code = wrEngineCode.OK ∧
      (w.getCameraDeviceInfo i).position = wrCameraDevicePosition.FRONT) := by
  simp [World.isFront]

theorem World.isFront_false_iff (w : World) (i : Nat) :
    w.isFront i = false ↔ ((w.getCameraDeviceInfo i).code ≠ wrEngineCode.OK ∨
      (w.getCameraDeviceInfo i).position = wrCameraDevicePosition.BACK ∨
      (w.getCameraDeviceInfo i).position = wrCameraDevicePosition.UNKNOWN) := by
  simp only [World.isFront, decide_eq_false_iff_not, not_and_or]
  cases (w.getCameraDeviceInfo i).position <;> simp

/-- C11: `start` selects the front-facing camera.  It calls `wrEngine_Create` if and only
if some index below the camera count has a query that returns OK and position FRONT; the
device used is the one at the least such index: exactly the indices up to it are queried,
its id is the one read and the only one written as DEVICE_ID.  A device whose query fails
or whose position is BACK or UNKNOWN is skipped, the device info is read only after a
query that returned OK, and when there is no such index all devices are queried and
neither `wrEngine_Create` nor `wrEngine_OpenCamera` is called. -/
theorem start_selects_first_front (w : World) (key : String) (g : Globals) :
    (∀ i, w.isFront i = true ↔ ((w.getCameraDeviceInfo i).code = wrEngineCode.OK ∧
      (w.getCameraDeviceInfo i).position = wrCameraDevicePosition.FRONT)) ∧
    (∀ i, w.isFront i = false ↔ ((w.getCameraDeviceInfo i).code ≠ wrEngineCode.OK ∨
      (w.getCameraDeviceInfo i).position = wrCameraDevicePosition.BACK ∨
      (w.getCameraDeviceInfo i).position = wrCameraDevicePosition.UNKNOWN)) ∧
    ((∃ e ∈ startCalls w key g, e.isEngineCreate = true) ↔
      ∃ i, i < uint32 w.numCameraDevices ∧ w.isFront i = true) ∧
    (∀ i, i < uint32 w.numCameraDevices → w.isFront i = true →
      (∀ j, j < i → w.isFront j = false) →
      queryIndices (startCalls w key g) = List.range (i + 1) ∧
      Call.wrCameraDeviceInfo_GetId w.cameraDeviceInfoCreate (w.getCameraDeviceInfo i).id ∈
        startCalls w key g ∧
      Call.wrCameraConfig_SetStringProperty w.cameraConfigCreate
        wrCameraConfigPropertyString.DEVICE_ID.val (w.getCameraDeviceInfo i).id
        (w.setterCode Setter.wrCameraConfig_SetStringProperty
          wrCameraConfigPropertyString.DEVICE_ID.val) ∈ startCalls w key g ∧
      (∀ cfg p v r, Call.wrCameraConfig_SetStringProperty cfg p v r ∈ startCalls w key g →
        v = (w.getCameraDeviceInfo i).id) ∧
      Call.wrEngine_Create w.engineConfigCreate w.engineCreateCode w.engineCreateOut ∈
        startCalls w key g) ∧
    readsFollowOk none (startCalls w key g) = true ∧
    ((∀ i, i < uint32 w.numCameraDevices → w.isFront i = false) →
      queryIndices (startCalls w key g) = List.range (uint32 w.numCameraDevices) ∧
      ∀ e ∈ startCalls w key g, e.isEngineCreate = false ∧ e.isOpenCamera = false) := by
  have hnone : (∀ i, i < uint32 w.numCameraDevices → w.isFront i = false) →
      queryIndices (startCalls w key g) = List.range (uint32 w.numCameraDevices) ∧
      ∀ e ∈ startCalls w key g, e.isEngineCreate = false ∧ e.isOpenCamera = false := by
    intro hno
    obtain ⟨skipped, hq, hp, -, hc⟩ := startCalls_none w key g hno
    refine ⟨?_, ?_⟩
    · rw [hc, queryIndices_append, hq]
      simp [queryIndices, Call.queryIndex?]
    · intro e he
      rw [hc] at he
      simp only [List.mem_append, List.mem_cons, List.mem_singleton, List.not_mem_nil,
        or_false] at he
      rcases he with he | he
      · rcases he with rfl | rfl | rfl | rfl <;> exact ⟨rfl, rfl⟩
      · exact ⟨(Call.isProbe_facts (hp e he)).1, (Call.isProbe_facts (hp e he)).2.1⟩
  have hsel : ∀ i, i < uint32 w.numCameraDevices → w.isFront i = true →
      (∀ j, j < i → w.isFront j = false) →
      queryIndices (startCalls w key g) = List.range (i + 1) ∧
      Call.wrCameraDeviceInfo_GetId w.cameraDeviceInfoCreate (w.getCameraDeviceInfo i).id ∈
        startCalls w key g ∧
      Call.wrCameraConfig_SetStringProperty w.cameraConfigCreate
        wrCameraConfigPropertyString.DEVICE_ID.val (w.getCameraDeviceInfo i).id
        (w.setterCode Setter.wrCameraConfig_SetStringProperty
          wrCameraConfigPropertyString.DEVICE_ID.val) ∈ startCalls w key g ∧
      (∀ cfg p v r, Call.wrCameraConfig_SetStringProperty cfg p v r ∈ startCalls w key g →
        v = (w.getCameraDeviceInfo i).id) ∧
      Call.wrEngine_Create w.engineConfigCreate w.engineCreateCode w.engineCreateOut ∈
        startCalls w key g := by
    intro i hi hfront hleast
    obtain ⟨skipped, hq, hp, hret, -, hc⟩ := startCalls_selected w key g i hi hfront hleast
    obtain ⟨-, -, -, hev⟩ := startBody_ret_events w key _ _ i g hret
    refine ⟨?_, ?_, ?_, ?_, ?_⟩
    · rw [hc, queryIndices_append, queryIndices_append, hq, startBody_queryIndices,
        List.range_succ]
      simp [queryIndices, Call.queryIndex?]
    · rw [hc, hev]; simp
    · rw [hc, hev]; simp
    · intro cfg p v r he
      rw [hc, hev] at he
      simp only [List.mem_append, List.mem_cons, List.mem_singleton, List.not_mem_nil,
        or_false, reduceCtorEq, false_or, Call.wrCameraConfig_SetStringProperty.injEq]
        at he
      rcases he with he | he | he
      · have := hp _ he
        simp [Call.isProbe] at this
      · exact he.2.2.1
      · split_ifs at he <;> simp at he
    · rw [hc, hev]; simp
  refine ⟨World.isFront_iff w, World.isFront_false_iff w, ⟨?_, ?_⟩, hsel, ?_, hnone⟩
  · rintro ⟨e, he, hcreate⟩
    rcases front_least_or_none w with hno | ⟨i, hi, hfront, -⟩
    · have := ((hnone hno).2 e he).1
      rw [hcreate] at this
      exact Bool.noConfusion this
    · exact ⟨i, hi, hfront⟩
  · rintro ⟨i, hi, hfront⟩
    rcases front_least_or_none w with hno | ⟨k, hk, hkfront, hleast⟩
    · have := hno i hi
      rw [hfront] at this
      exact Bool.noConfusion this
    · exact ⟨_, (hsel k hk hkfront hleast).2.2.2.2, rfl⟩
  · obtain ⟨m, -, -, hres⟩ := startCalls_passes w key g
    have hflat : ∀ last, readsFollowOk last ((List.range' 0 m).flatMap fun j =>
        (startBody w key w.cameraConfigCreate w.cameraDeviceInfoCreate j g).2.2) = true :=
      readsFollowOk_flatMap _ (fun j last => startBody_readsFollowOk w key _ _ j g last) _
    rcases hres with ⟨-, -, hc⟩ | ⟨-, -, -, hc⟩
    · rw [hc]
      exact readsFollowOk_append _ _ none rfl hflat
    · rw [hc]
      refine readsFollowOk_append _ _ none rfl (fun last => ?_)
      exact readsFollowOk_append _ _ last (hflat last)
        (fun last' => startBody_readsFollowOk w key _ _ m g last')

theorem start_selects_first_front_witness :
    (1 < uint32 (sampleWorld wrEngineCode.OK wrEngineCode.OK).numCameraDevices ∧
      (sampleWorld wrEngineCode.OK wrEngineCode.OK).isFront 1 = true ∧
      (∀ j, j < 1 → (sampleWorld wrEngineCode.OK wrEngineCode.OK).isFront j = false)) ∧
    queryIndices (startCalls (sampleWorld wrEngineCode.OK wrEngineCode.OK) "KEY"
      Globals.initial) = List.range (1 + 1) :=
  ⟨⟨by decide, by decide, by decide⟩,
    ((start_selects_first_front (sampleWorld wrEngineCode.OK wrEngineCode.OK) "KEY"
      Globals.initial).2.2.2.1 1 (by decide) (by decide) (by decide)).1⟩

/-! ## The camera configuration -/

theorem Call.isProbe_no_write {e : Call} (h : e.isProbe = true) :
    e.writesCameraConfig = false ∧ e.isDestroy = false := by
  cases e <;> simp_all [Call.isProbe, Call.writesCameraConfig, Call.isDestroy]

theorem CameraConfig.apply_of_no_write (config : Handle) (c : CameraConfig) (e : Call)
    (he : e.writesCameraConfig = false) : CameraConfig.apply config c e = c := by
  cases e <;> first
    | rfl
    | (exact Bool.noConfusion he)

theorem CameraConfig.replay_of_no_write (config : Handle) :
    ∀ (l : List Call) (c : CameraConfig), (∀ e ∈ l, e.writesCameraConfig = false) →
      CameraConfig.replay config c l = c := by
  intro l
  induction l with
  | nil => intro c _; rfl
  | cons e l ih =>
    intro c h
    have hstep := CameraConfig.apply_of_no_write config c e (h e (List.mem_cons_self _ _))
    show CameraConfig.replay config (CameraConfig.apply config c e) l = c
    rw [hstep]
    exact ih c (fun e' he' => h e' (List.mem_cons_of_mem _ he'))

theorem CameraConfig.camera_replay_append (config : Handle) (c : CameraConfig) (a b : List Call) :
    CameraConfig.replay config c (a ++ b) =
      CameraConfig.replay config (CameraConfig.replay config c a) b := by
  simp [CameraConfig.replay, List.foldl_append]

/-- A run with no front device below the camera count makes no call of
`wrEngine_OpenCamera`. -/
theorem startCalls_none_no_open (w : World) (key : String) (g : Globals)
    (hno : ∀ i, i < uint32 w.numCameraDevices → w.isFront i = false) :
    ∀ e ∈ startCalls w key g, e.isOpenCamera = false := by
  obtain ⟨skipped, -, hp, -, hc⟩ := startCalls_none w key g hno
  intro e he
  rw [hc] at he
  simp only [List.mem_append, List.mem_cons, List.mem_singleton, List.not_mem_nil,
    or_false] at he
  rcases he with he | he
  · rcases he with rfl | rfl | rfl | rfl <;> rfl
  · exact (Call.isProbe_facts (hp e he)).2.1

/-- C12: in a run of `start` that calls `wrEngine_OpenCamera` (the calls before it are
`pre`, the calls after it are `post`), the config passed is the one `start` created, and
the calls before that write a wrCameraConfig are exactly four, on that config, one for each
of WIDTH (1920), HEIGHT (1080), FPS (30) and DEVICE_ID (the id read from the selected
device, the least front device); no call writes the camera matrix or the ground plane, and
none writes a wrCameraConfig afterwards.  Whatever the config held when created, when
`wrEngine_OpenCamera` receives it it holds these four values and the camera matrix and the
ground plane are as created. -/
theorem start_camera_config_written_once (w : World) (key : String) (g : Globals)
    (pre post : List Call) (eng cfg : Handle) (c : wrEngineCode)
    (h : startCalls w key g = pre ++ Call.wrEngine_OpenCamera eng cfg c :: post) :
    ∃ i, i < uint32 w.numCameraDevices ∧ w.isFront i = true ∧
      (∀ j, j < i → w.isFront j = false) ∧
      cfg = w.cameraConfigCreate ∧
      pre.filter Call.writesCameraConfig =
        [Call.wrCameraConfig_SetIntProperty cfg wrCameraConfigPropertyInt.WIDTH.val 1920
           (w.setterCode Setter.wrCameraConfig_SetIntProperty
             wrCameraConfigPropertyInt.WIDTH.val),
         Call.wrCameraConfig_SetIntProperty cfg wrCameraConfigPropertyInt.HEIGHT.val 1080
           (w.setterCode Setter.wrCameraConfig_SetIntProperty
             wrCameraConfigPropertyInt.HEIGHT.val),
         Call.wrCameraConfig_SetFloatProperty cfg wrCameraConfigPropertyFloat.FPS.val ⟨30⟩
           (w.setterCode Setter.wrCameraConfig_SetFloatProperty
             wrCameraConfigPropertyFloat.FPS.val),
         Call.wrCameraConfig_SetStringProperty cfg wrCameraConfigPropertyString.DEVICE_ID.val
           (w.getCameraDeviceInfo i).id
           (w.setterCode Setter.wrCameraConfig_SetStringProperty
             wrCameraConfigPropertyString.DEVICE_ID.val)] ∧
      (∀ e ∈ post, e.writesCameraConfig = false) ∧
      (∀ c0 : CameraConfig, CameraConfig.replay cfg c0 pre =
        { c0 with
          width := 1920
          height := 1080
          fps := ⟨30⟩
          deviceId := (w.getCameraDeviceInfo i).id }) := by
  have hmem : Call.wrEngine_OpenCamera eng cfg c ∈ startCalls w key g := by
    rw [h]; simp
  rcases front_least_or_none w with hno | ⟨i, hi, hfront, hleast⟩
  · have := startCalls_none_no_open w key g hno _ hmem
    exact Bool.noConfusion this
  · refine ⟨i, hi, hfront, hleast, ?_⟩
    obtain ⟨skipped, -, hp, hret, -, hc⟩ := startCalls_selected w key g i hi hfront hleast
    obtain ⟨-, -, -, hev⟩ := startBody_ret_events w key _ _ i g hret
    rw [hev] at hc
    have hsk : ∀ e ∈ skipped, e.isOpenCamera = false ∧ e.writesCameraConfig = false :=
      fun e he => ⟨(Call.isProbe_facts (hp e he)).2.1, (Call.isProbe_no_write (hp e he)).1⟩
    by_cases hok : w.engineCreateCode = wrEngineCode.OK
    · simp only [hok, ne_eq, not_true_eq_false, if_false] at hc
      have hsplit : ∀ (a b l t : List Call) (x y z u : Call),
          a ++ (b ++ (l ++ x :: ([y, z, u] ++ t))) =
            (a ++ (b ++ (l ++ [x, y, z]))) ++ u :: t := by
        intros; simp
      rw [hsplit, h] at hc
      have hu := append_cons_unique (p := Call.isOpenCamera) hc rfl
        (by
          intro e he
          simp only [List.mem_append, List.mem_cons, List.mem_singleton, List.not_mem_nil,
            or_false] at he
          rcases he with he | he | he | he
          · rcases he with rfl | rfl | rfl | rfl <;> rfl
          · exact (hsk _ he).1
          · rcases he with rfl | rfl | rfl | rfl | rfl | rfl | rfl | rfl | rfl | rfl | rfl |
              rfl | rfl | rfl | rfl | rfl | rfl | rfl <;> rfl
          · rcases he with rfl | rfl | rfl <;> rfl)
        (by
          intro e he
          by_cases hopen : w.openCameraCode = wrEngineCode.OK
          · simp [hopen] at he
          · simp only [hopen, ne_eq, not_false_eq_true, if_true, List.mem_cons,
              List.mem_singleton, List.not_mem_nil, or_false] at he
            rcases he with rfl | rfl | rfl <;> rfl)
      obtain ⟨hpre, hx, hpost⟩ := hu
      simp only [Call.wrEngine_OpenCamera.injEq] at hx
      obtain ⟨rfl, rfl, rfl⟩ := hx
      have hskf : skipped.filter Call.writesCameraConfig = [] :=
        List.filter_eq_nil_iff.mpr (fun e he => by simp [(hsk e he).2])
      refine ⟨rfl, ?_, ?_, ?_⟩
      · rw [hpre, List.filter_append, List.filter_append, List.filter_append, hskf]
        simp [Call.writesCameraConfig]
      · intro e he
        rw [hpost] at he
        by_cases hopen : w.openCameraCode = wrEngineCode.OK
        · simp [hopen] at he
        · simp only [hopen, ne_eq, not_false_eq_true, if_true, List.mem_cons,
            List.mem_singleton, List.not_mem_nil, or_false] at he
          rcases he with rfl | rfl | rfl <;> rfl
      · intro c0
        rw [hpre, CameraConfig.camera_replay_append, CameraConfig.camera_replay_append,
          CameraConfig.camera_replay_append,
          CameraConfig.replay_of_no_write _ _ c0
            (by
              intro e he
              simp only [List.mem_cons, List.mem_singleton, List.not_mem_nil, or_false]
                at he
              rcases he with rfl | rfl | rfl | rfl <;> rfl),
          CameraConfig.replay_of_no_write _ skipped c0 (fun e he => (hsk e he).2)]
        simp [CameraConfig.replay, CameraConfig.apply, wrCameraConfigPropertyInt.val,
          wrCameraConfigPropertyFloat.val, wrCameraConfigPropertyString.val]
    · exfalso
      rw [hc] at hmem
      simp only [hok, ne_eq, not_false_eq_true, if_true, List.mem_append, List.mem_cons,
        List.mem_singleton, List.not_mem_nil, or_false, reduceCtorEq, false_or] at hmem
      have := (hsk _ hmem).1
      simp [Call.isOpenCamera] at this

theorem start_camera_config_written_once_witness :
    startCalls (sampleWorld wrEngineCode.OK wrEngineCode.OK) "KEY" Globals.initial =
        (startCalls (sampleWorld wrEngineCode.OK wrEngineCode.OK) "KEY" Globals.initial).take 31
          ++ Call.wrEngine_OpenCamera 400 100 wrEngineCode.OK ::
          (startCalls (sampleWorld wrEngineCode.OK wrEngineCode.OK) "KEY" Globals.initial).drop
            32 ∧
      ∃ i, i < uint32 (sampleWorld wrEngineCode.OK wrEngineCode.OK).numCameraDevices ∧
        (100 : Handle) = (sampleWorld wrEngineCode.OK wrEngineCode.OK).cameraConfigCreate :=
  ⟨by decide,
    (start_camera_config_written_once (sampleWorld wrEngineCode.OK wrEngineCode.OK) "KEY"
      Globals.initial
      ((startCalls (sampleWorld wrEngineCode.OK wrEngineCode.OK) "KEY" Globals.initial).take 31)
      ((startCalls (sampleWorld wrEngineCode.OK wrEngineCode.OK) "KEY" Globals.initial).drop 32)
      400 100 wrEngineCode.OK (by decide)).imp fun _ hi => ⟨hi.1, hi.2.2.2.1⟩⟩

/-! ## The report of a camera failure -/

/-- C13 (the code at a failing input): with a front camera, `wrEngine_Create` returning OK
and `wrEngine_OpenCamera` returning `wrEngineCode_ERR`, the run ends with
`wrEngineCode_Describe(wrEngineCode_OK)` and prints its text "ok" after
"wrEngine open camera error: ": line 81 describes `code`, the code of `wrEngine_Create`,
not `cameraCode`, whose description is "failure". -/
theorem start_open_camera_error_text :
    (startCalls (sampleWorld wrEngineCode.OK wrEngineCode.ERR) "KEY" Globals.initial).drop 31 =
        [Call.wrEngine_OpenCamera 400 100 wrEngineCode.ERR,
         Call.wrEngineCode_Describe wrEngineCode.OK "ok",
         Call.cout "wrEngine open camera error: ",
         Call.cout "ok"] ∧
      (sampleWorld wrEngineCode.OK wrEngineCode.ERR).describe wrEngineCode.ERR = "failure" ∧
      Call.cout ((sampleWorld wrEngineCode.OK wrEngineCode.ERR).describe wrEngineCode.ERR) ∉
        startCalls (sampleWorld wrEngineCode.OK wrEngineCode.ERR) "KEY" Globals.initial := by
  decide

/-- The text printed after "wrEngine open camera error: " in any run: the run ends with the
description of the code of `wrEngine_Create`, which is `wrEngineCode_OK` there. -/
theorem start_open_camera_error_describes_create (w : World) (key : String) (g : Globals)
    (i : Nat) (hi : i < uint32 w.numCameraDevices) (hfront : w.isFront i = true)
    (hleast : ∀ j, j < i → w.isFront j = false)
    (hcreate : w.engineCreateCode = wrEngineCode.OK)
    (hopen : w.openCameraCode ≠ wrEngineCode.OK) :
    ∃ pre, startCalls w key g = pre ++
      [Call.wrEngine_OpenCamera w.engineCreateOut w.cameraConfigCreate w.openCameraCode,
       Call.wrEngineCode_Describe wrEngineCode.OK (w.describe wrEngineCode.OK),
       Call.cout "wrEngine open camera error: ",
       Call.cout (w.describe wrEngineCode.OK)] := by
  obtain ⟨skipped, -, -, hret, -, hc⟩ := startCalls_selected w key g i hi hfront hleast
  obtain ⟨-, -, -, hev⟩ := startBody_ret_events w key _ _ i g hret
  rw [hev] at hc
  simp only [hcreate, hopen, ne_eq, not_true_eq_false, not_false_eq_true, if_false, if_true]
    at hc
  have hsplit : ∀ (a b l t : List Call) (x y z : Call),
      a ++ (b ++ (l ++ x :: ([y, z] ++ t))) = (a ++ (b ++ (l ++ [x, y, z]))) ++ t := by
    intros; simp
  exact ⟨_, by
    rw [hc]
    exact hsplit _ _ _ _ _ _ _⟩

/-! ## Null handles and destruction -/

/-- C14 (the code at a failing input): when `wrCameraConfig_Create`,
`wrCameraDeviceInfo_Create` and `wrEngineConfig_Create` return `NULL`, `start` goes on and
passes `NULL` to `wrEngine_GetCameraDeviceInfo`, to the getters, to the property setters,
to `wrEngine_Create` and, as the camera config, to `wrEngine_OpenCamera`. -/
theorem start_passes_null_handles :
    Call.wrCameraDeviceInfo_Create NULL ∈ startCalls nullWorld "KEY" Globals.initial ∧
      Call.wrEngine_GetCameraDeviceInfo NULL 0 wrEngineCode.OK ∈
        startCalls nullWorld "KEY" Globals.initial ∧
      Call.wrCameraDeviceInfo_GetId NULL "cam0" ∈
        startCalls nullWorld "KEY" Globals.initial ∧
      Call.wrCameraConfig_SetIntProperty NULL wrCameraConfigPropertyInt.WIDTH.val 1920
        wrEngineCode.OK ∈ startCalls nullWorld "KEY" Globals.initial ∧
      Call.wrEngineConfig_SetStringProperty NULL
        wrEngineConfigPropertyString.LICENSE_STRING.val "KEY" wrEngineCode.OK ∈
        startCalls nullWorld "KEY" Globals.initial ∧
      Call.wrEngine_Create NULL wrEngineCode.OK 400 ∈
        startCalls nullWorld "KEY" Globals.initial ∧
      Call.wrEngine_OpenCamera 400 NULL wrEngineCode.OK ∈
        startCalls nullWorld "KEY" Globals.initial ∧
      ¬ (∀ e ∈ startCalls nullWorld "KEY" Globals.initial, ∀ h ∈ e.handlesPassed,
        h ≠ NULL) := by
  decide

/-- No run of `start` calls a `Destroy` function. -/
theorem startCalls_filter_isDestroy (w : World) (key : String) (g : Globals) :
    (startCalls w key g).filter Call.isDestroy = [] := by
  rw [List.filter_eq_nil_iff]
  intro e he
  rw [Bool.not_eq_true]
  rcases front_least_or_none w with hno | ⟨i, hi, hfront, hleast⟩
  · obtain ⟨skipped, -, hp, -, hc⟩ := startCalls_none w key g hno
    rw [hc] at he
    simp only [List.mem_append, List.mem_cons, List.mem_singleton, List.not_mem_nil,
      or_false] at he
    rcases he with he | he
    · rcases he with rfl | rfl | rfl | rfl <;> rfl
    · exact (Call.isProbe_no_write (hp e he)).2
  · obtain ⟨skipped, -, hp, hret, -, hc⟩ := startCalls_selected w key g i hi hfront hleast
    obtain ⟨-, -, -, hev⟩ := startBody_ret_events w key _ _ i g hret
    rw [hc, hev] at he
    simp only [List.mem_append, List.mem_cons, List.mem_singleton, List.not_mem_nil,
      or_false] at he
    rcases he with he | he | he | he
    · rcases he with rfl | rfl | rfl | rfl <;> rfl
    · exact (Call.isProbe_no_write (hp e he)).2
    · rcases he with rfl | rfl | rfl | rfl | rfl | rfl | rfl | rfl | rfl | rfl | rfl |
        rfl | rfl | rfl | rfl | rfl | rfl | rfl <;> rfl
    · rcases he with rfl | he
      · rfl
      · by_cases hok : w.engineCreateCode = wrEngineCode.OK <;>
          by_cases hopen : w.openCameraCode = wrEngineCode.OK <;>
          simp only [hok, hopen, ne_eq, not_true_eq_false, not_false_eq_true, if_false,
            if_true, List.mem_append, List.mem_cons, List.mem_singleton, List.not_mem_nil,
            or_false] at he
        · rcases he with rfl | rfl | rfl <;> rfl
        · rcases he with (rfl | rfl | rfl) | (rfl | rfl | rfl) <;> rfl
        · rcases he with rfl | rfl | rfl <;> rfl
        · rcases he with rfl | rfl | rfl <;> rfl

/-- C15 (the code on every input): every run of `start` returns, obtains a camera config
and a device info (and an engine config when a front device is found), and passes no
handle to a `Destroy` function, on any path. -/
theorem start_never_destroys (w : World) (key : String) (g : Globals) :
    (∃ g', start w key g = some (g', startCalls w key g)) ∧
    Call.wrCameraConfig_Create w.cameraConfigCreate ∈ startCalls w key g ∧
    Call.wrCameraDeviceInfo_Create w.cameraDeviceInfoCreate ∈ startCalls w key g ∧
    (startCalls w key g).filter Call.isDestroy = [] ∧
    Call.wrCameraConfig_Destroy w.cameraConfigCreate ∉ startCalls w key g ∧
    Call.wrCameraDeviceInfo_Destroy w.cameraDeviceInfoCreate ∉ startCalls w key g ∧
    Call.wrEngineConfig_Destroy w.engineConfigCreate ∉ startCalls w key g := by
  have hf := startCalls_filter_isDestroy w key g
  have hnot : ∀ e, e.isDestroy = true → e ∉ startCalls w key g := fun e hd he => by
    have := List.filter_eq_nil_iff.mp hf e he
    exact this hd
  have hcreates : Call.wrCameraConfig_Create w.cameraConfigCreate ∈ startCalls w key g ∧
      Call.wrCameraDeviceInfo_Create w.cameraDeviceInfoCreate ∈ startCalls w key g := by
    obtain ⟨m, skipped, -, -, -, -, hres⟩ := startCalls_cases w key g
    rcases hres with ⟨-, -, hc⟩ | ⟨-, -, -, hc⟩ <;> rw [hc] <;> simp
  exact ⟨start_returns w key g, hcreates.1, hcreates.2, hf, hnot _ rfl, hnot _ rfl,
    hnot _ rfl⟩

/-! ## The detection callback -/

/-- C17: for every frame, buffer, length and user data, `Wrnch2::detectionCallback` leaves
the file-level variables (`framesReceived`, to which the user data points, and `engine`)
as they were, and its only effect is the output of the fixed text "detectionCallback()",
the same whatever the arguments are. -/
theorem detectionCallback_effect (frame : Handle) (serializedDetections : List Nat)
    (serializedDetectionsLen : Nat) (userData : UserDataPtr) (g : Globals) :
    (detectionCallback frame serializedDetections serializedDetectionsLen userData g).1 = g ∧
    (detectionCallback frame serializedDetections serializedDetectionsLen userData
      g).1.framesReceived = g.framesReceived ∧
    (detectionCallback frame serializedDetections serializedDetectionsLen userData g).2 =
      [Call.cout "detectionCallback()"] ∧
    (∀ (frame' : Handle) (serializedDetections' : List Nat) (serializedDetectionsLen' : Nat)
      (userData' : UserDataPtr),
      detectionCallback frame' serializedDetections' serializedDetectionsLen' userData' g =
        detectionCallback frame serializedDetections serializedDetectionsLen userData g) := by
  refine ⟨rfl, rfl, rfl, ?_⟩
  intro frame' serializedDetections' serializedDetectionsLen' userData'
  rfl

/-! ## The engine variable -/

/-- The file-level variables after a run of `start`: `framesReceived` is as before, and
`engine` is what `wrEngine_Create` stored if a front device was found, else as before. -/
theorem start_globals (w : World) (key : String) (g : Globals) :
    ∃ g', start w key g = some (g', startCalls w key g) ∧
      g'.framesReceived = g.framesReceived ∧
      ((∃ i, i < uint32 w.numCameraDevices ∧ w.isFront i = true) →
        g'.engine = w.engineCreateOut) ∧
      ((∀ i, i < uint32 w.numCameraDevices → w.isFront i = false) → g'.engine = g.engine) := by
  rcases front_least_or_none w with hno | ⟨i, hi, hfront, hleast⟩
  · obtain ⟨skipped, -, -, hs, -⟩ := startCalls_none w key g hno
    refine ⟨g, hs, rfl, ?_, fun _ => rfl⟩
    rintro ⟨i, hi, hfront⟩
    have := hno i hi
    rw [hfront] at this
    exact Bool.noConfusion this
  · obtain ⟨skipped, -, -, -, hs, -⟩ := startCalls_selected w key g i hi hfront hleast
    refine ⟨_, hs, rfl, fun _ => rfl, fun hno => ?_⟩
    have := hno i hi
    rw [hfront] at this
    exact Bool.noConfusion this

/-- C16 (counterexample): two different `Wrnch2` objects each complete `start` with a
successful `wrEngine_Create`, the first creating engine 400 and the second engine 401;
afterwards the handle the first object has is 401, not the 400 it created. -/
theorem two_starts_overwrite_engine :
    Call.wrEngine_Create 300 wrEngineCode.OK 400 ∈
        startCalls (sampleWorldWithEngine 400) "KEY" Globals.initial ∧
      Call.wrEngine_Create 300 wrEngineCode.OK 401 ∈
        startCalls (sampleWorldWithEngine 401) "KEY" ⟨0, 400⟩ ∧
      (⟨1⟩ : Wrnch2) ≠ ⟨2⟩ ∧
      startTwo ⟨1⟩ ⟨2⟩ (sampleWorldWithEngine 400) (sampleWorldWithEngine 401) "KEY" "KEY"
        Globals.initial = some ⟨0, 401⟩ ∧
      ¬ (Wrnch2.engine ⟨1⟩ ⟨0, 401⟩ = 400 ∧ Wrnch2.engine ⟨2⟩ ⟨0, 401⟩ = 401) := by
  decide

/-- C16 (amended): the engine handle is kept in one file-level variable that all `Wrnch2`
objects share.  After two objects have run `start` one after the other, both have the
same handle: the pointer stored by the `wrEngine_Create` of the second run if that run
found a front device, and otherwise the handle the first run left; `framesReceived` is
unchanged. -/
theorem engine_variable_shared (a b : Wrnch2) (wa wb : World) (keyA keyB : String)
    (g : Globals) :
    ∃ g1 g2, a.start wa keyA g = some (g1, startCalls wa keyA g) ∧
      b.start wb keyB g1 = some (g2, startCalls wb keyB g1) ∧
      startTwo a b wa wb keyA keyB g = some g2 ∧
      a.engine g2 = b.engine g2 ∧
      g2.framesReceived = g.framesReceived ∧
      ((∃ i, i < uint32 wb.numCameraDevices ∧ wb.isFront i = true) →
        a.engine g2 = wb.engineCreateOut ∧ b.engine g2 = wb.engineCreateOut) ∧
      ((∀ i, i < uint32 wb.numCameraDevices → wb.isFront i = false) →
        a.engine g2 = a.engine g1 ∧ b.engine g2 = a.engine g1) := by
  obtain ⟨g1, h1, hf1, -, -⟩ := start_globals wa keyA g
  obtain ⟨g2, h2, hf2, hsome, hnone⟩ := start_globals wb keyB g1
  refine ⟨g1, g2, h1, h2, ?_, rfl, by rw [hf2, hf1], fun h => ⟨hsome h, hsome h⟩,
    fun h => ⟨hnone h, hnone h⟩⟩
  simp only [startTwo, Wrnch2.start, h1, h2]

theorem engine_variable_shared_witness :
    (∃ i, i < uint32 (sampleWorldWithEngine 401).numCameraDevices ∧
        (sampleWorldWithEngine 401).isFront i = true) ∧
      ∃ g1 g2 : Globals,
        Wrnch2.start ⟨1⟩ (sampleWorldWithEngine 400) "KEY" Globals.initial =
          some (g1, startCalls (sampleWorldWithEngine 400) "KEY" Globals.initial) ∧
        startTwo ⟨1⟩ ⟨2⟩ (sampleWorldWithEngine 400) (sampleWorldWithEngine 401)
          "KEY" "KEY" Globals.initial = some g2 ∧
        Wrnch2.engine ⟨1⟩ g2 = Wrnch2.engine ⟨2⟩ g2 ∧
        Wrnch2.engine ⟨1⟩ g2 = (sampleWorldWithEngine 401).engineCreateOut :=
  ⟨⟨1, by decide, by decide⟩,
    match engine_variable_shared ⟨1⟩ ⟨2⟩ (sampleWorldWithEngine 400)
      (sampleWorldWithEngine 401) "KEY" "KEY" Globals.initial with
    | ⟨g1, g2, h1, _, h3, h4, _, h6, _⟩ =>
      ⟨g1, g2, h1, h3, h4, (h6 ⟨1, by decide, by decide⟩).1⟩⟩

/-! ## Termination -/

/-- More fuel than the loop needs does not change what the loop does. -/
theorem startLoop_fuel (w : World) (key : String) (cc di : Handle) (n : Nat)
    (hn : n < 4294967296) :
    ∀ (fuel1 fuel2 i : Nat) (g : Globals), i ≤ n → n - i < fuel1 → n - i < fuel2 →
      startLoop w key cc di n fuel1 i g = startLoop w key cc di n fuel2 i g := by
  intro fuel1
  induction fuel1 with
  | zero => intro fuel2 i g _ h; omega
  | succ fuel1 ih =>
    intro fuel2 i g hi h1 h2
    cases fuel2 with
    | zero => omega
    | succ fuel2 =>
      by_cases hlt : i < n
      · have hu : uint32 (i + 1) = i + 1 := uint32_of_lt (by omega)
        rcases hb : startBody w key cc di i g with ⟨fl, g', ev⟩
        cases fl with
        | ret => simp only [startLoop, hlt, if_true, hb]
        | next =>
          simp only [startLoop, hlt, if_true, hb, hu]
          rw [ih fuel2 (i + 1) g' (by omega) (by omega) (by omega)]
      · simp only [startLoop, hlt, if_false]

theorem startCalls_queryIndices (w : World) (key : String) (g : Globals) :
    ∃ k, k ≤ uint32 w.numCameraDevices ∧ queryIndices (startCalls w key g) = List.range k := by
  obtain ⟨m, skipped, hm, hq, -, -, hres⟩ := startCalls_cases w key g
  rcases hres with ⟨-, -, hc⟩ | ⟨hlt, -, -, hc⟩
  · refine ⟨m, hm, ?_⟩
    rw [hc, queryIndices_append, hq]
    simp [queryIndices, Call.queryIndex?]
  · refine ⟨m + 1, by omega, ?_⟩
    rw [hc, queryIndices_append, queryIndices_append, hq, startBody_queryIndices,
      List.range_succ]
    simp [queryIndices, Call.queryIndex?]

/-- C18: `start` returns for every camera count and every combination of codes returned
by `wrEngine_GetCameraDeviceInfo`, `wrEngine_Create` and `wrEngine_OpenCamera`: the run
with `n + 1` tests of the loop condition reaches the end of the function, more tests
change nothing, and the loop body is entered at most `n` times (once for each query of
a device). -/
theorem start_terminates (w : World) (key : String) (g : Globals) :
    (∃ g' calls, start w key g = some (g', calls)) ∧
    (start w key g).isSome = true ∧
    (queryIndices (startCalls w key g)).length ≤ uint32 w.numCameraDevices ∧
    (∀ fuel, uint32 w.numCameraDevices < fuel → startFuel fuel w key g = start w key g) := by
  refine ⟨?_, ?_, ?_, ?_⟩
  · obtain ⟨g', h⟩ := start_returns w key g
    exact ⟨g', _, h⟩
  · obtain ⟨g', h⟩ := start_returns w key g
    rw [h]
    rfl
  · obtain ⟨k, hk, hq⟩ := startCalls_queryIndices w key g
    rw [hq, List.length_range]
    exact hk
  · intro fuel hfuel
    simp only [start, startFuel]
    rw [startLoop_fuel w key _ _ _ (uint32_lt _) fuel (uint32 w.numCameraDevices + 1) 0 g
      (Nat.zero_le _) (by omega) (by omega)]

theorem start_terminates_witness :
    uint32 (sampleWorld wrEngineCode.BAD_ALLOC wrEngineCode.ERR).numCameraDevices < 10 ∧
      startFuel 10 (sampleWorld wrEngineCode.BAD_ALLOC wrEngineCode.ERR) "KEY"
          Globals.initial =
        start (sampleWorld wrEngineCode.BAD_ALLOC wrEngineCode.ERR) "KEY" Globals.initial :=
  ⟨by decide,
    (start_terminates (sampleWorld wrEngineCode.BAD_ALLOC wrEngineCode.ERR) "KEY"
      Globals.initial).2.2.2 10 (by decide)⟩

/-! ## One engine, one camera -/

/-- C19: in a run of `start`, `wrEngine_Create` is called at most once and
`wrEngine_OpenCamera` at most once.  When there is a front device, the run returns after
the pass at the least one: `wrEngine_Create` is called exactly once, the indices queried
are those up to that device, and no later index is queried, whatever the codes of
`wrEngine_Create` and `wrEngine_OpenCamera` are. -/
theorem start_create_open_at_most_once (w : World) (key : String) (g : Globals) :
    ((startCalls w key g).filter Call.isEngineCreate).length ≤ 1 ∧
    ((startCalls w key g).filter Call.isOpenCamera).length ≤ 1 ∧
    (∀ i, i < uint32 w.numCameraDevices → w.isFront i = true →
      (∀ j, j < i → w.isFront j = false) →
      (startCalls w key g).filter Call.isEngineCreate =
        [Call.wrEngine_Create w.engineConfigCreate w.engineCreateCode w.engineCreateOut] ∧
      queryIndices (startCalls w key g) = List.range (i + 1) ∧
      (∀ k, i < k → k ∉ queryIndices (startCalls w key g)) ∧
      ∃ g', start w key g = some (g', startCalls w key g)) := by
  have hsel : ∀ i, i < uint32 w.numCameraDevices → w.isFront i = true →
      (∀ j, j < i → w.isFront j = false) →
      ((startCalls w key g).filter Call.isEngineCreate =
        [Call.wrEngine_Create w.engineConfigCreate w.engineCreateCode w.engineCreateOut] ∧
      ((startCalls w key g).filter Call.isOpenCamera).length ≤ 1) ∧
      queryIndices (startCalls w key g) = List.range (i + 1) := by
    intro i hi hfront hleast
    obtain ⟨skipped, hq, hp, hret, -, hc⟩ := startCalls_selected w key g i hi hfront hleast
    obtain ⟨-, -, -, hev⟩ := startBody_ret_events w key _ _ i g hret
    have hskc : skipped.filter Call.isEngineCreate = [] :=
      List.filter_eq_nil_iff.mpr (fun e he => by simp [(Call.isProbe_facts (hp e he)).1])
    have hsko : skipped.filter Call.isOpenCamera = [] :=
      List.filter_eq_nil_iff.mpr (fun e he => by simp [(Call.isProbe_facts (hp e he)).2.1])
    refine ⟨⟨?_, ?_⟩, ?_⟩
    · rw [hc, hev, List.filter_append, List.filter_append, List.filter_append, hskc]
      by_cases hok : w.engineCreateCode = wrEngineCode.OK <;>
        by_cases hopen : w.openCameraCode = wrEngineCode.OK <;>
        simp [hok, hopen, Call.isEngineCreate]
    · rw [hc, hev, List.filter_append, List.filter_append, List.filter_append, hsko]
      by_cases hok : w.engineCreateCode = wrEngineCode.OK <;>
        by_cases hopen : w.openCameraCode = wrEngineCode.OK <;>
        simp [hok, hopen, Call.isOpenCamera]
    · rw [hc, queryIndices_append, queryIndices_append, hq, startBody_queryIndices,
        List.range_succ]
      simp [queryIndices, Call.queryIndex?]
  have hnone : (∀ i, i < uint32 w.numCameraDevices → w.isFront i = false) →
      (startCalls w key g).filter Call.isEngineCreate = [] ∧
      (startCalls w key g).filter Call.isOpenCamera = [] := by
    intro hno
    obtain ⟨skipped, -, hp, -, hc⟩ := startCalls_none w key g hno
    have hskc : skipped.filter Call.isEngineCreate = [] :=
      List.filter_eq_nil_iff.mpr (fun e he => by simp [(Call.isProbe_facts (hp e he)).1])
    have hsko : skipped.filter Call.isOpenCamera = [] :=
      List.filter_eq_nil_iff.mpr (fun e he => by simp [(Call.isProbe_facts (hp e he)).2.1])
    constructor
    · rw [hc, List.filter_append, hskc]
      simp [Call.isEngineCreate]
    · rw [hc, List.filter_append, hsko]
      simp [Call.isOpenCamera]
  refine ⟨?_, ?_, ?_⟩
  · rcases front_least_or_none w with hno | ⟨i, hi, hfront, hleast⟩
    · rw [(hnone hno).1]; simp
    · rw [(hsel i hi hfront hleast).1.1]; simp
  · rcases front_least_or_none w with hno | ⟨i, hi, hfront, hleast⟩
    · rw [(hnone hno).2]; simp
    · exact (hsel i hi hfront hleast).1.2
  · intro i hi hfront hleast
    refine ⟨(hsel i hi hfront hleast).1.1, (hsel i hi hfront hleast).2, ?_,
      start_returns w key g⟩
    intro k hk hmem
    rw [(hsel i hi hfront hleast).2, List.mem_range] at hmem
    omega

theorem start_create_open_at_most_once_witness :
    (1 < uint32 (sampleWorld wrEngineCode.LICENSE_EXPIRED wrEngineCode.OK).numCameraDevices ∧
      (sampleWorld wrEngineCode.LICENSE_EXPIRED wrEngineCode.OK).isFront 1 = true ∧
      (sampleWorld wrEngineCode.LICENSE_EXPIRED wrEngineCode.OK).isFront 2 = true ∧
      (∀ j, j < 1 →
        (sampleWorld wrEngineCode.LICENSE_EXPIRED wrEngineCode.OK).isFront j = false)) ∧
    2 ∉ queryIndices (startCalls (sampleWorld wrEngineCode.LICENSE_EXPIRED wrEngineCode.OK)
      "KEY" Globals.initial) :=
  ⟨⟨by decide, by decide, by decide, by decide⟩,
    ((start_create_open_at_most_once (sampleWorld wrEngineCode.LICENSE_EXPIRED wrEngineCode.OK)
      "KEY" Globals.initial).2.2 1 (by decide) (by decide) (by decide)).2.2.1 2 (by decide)⟩

end Wrnch2Test

